import Mathlib

/-!
Verification of the realtime chat gateway (session manager + websocket
message pipeline) against its natural-language specification.

The definitions below are a shallow embedding of the TypeScript sources:
* `src/gateway/src/modules/ws/server.ts` (websocket message pipeline)
* `src/gateway/src/modules/auth/routes.ts` (session manager service)
* the chat REST routes (`GET`/`POST /v1/chats/:chatId/messages`)
* `src/gateway/sql/init.sql` (table shapes)

Conventions of the embedding:
* times are milliseconds as `Nat`; `Date.now()` is threaded as an explicit
  `now` argument; every SQL `NOW()` inside one handler uses that handler's
  `now`;
* `Date.parse` is passed in as an abstract `parseDate : String → Option Nat`
  (`none` models `NaN`);
* JavaScript numbers that may be `NaN` (`Number.isFinite` checks) are
  modelled as `Option Nat`;
* the relational store is a record of lists; `BIGSERIAL` id assignment is a
  `nextEnvelopeId` counter; handlers run serially (one connection task at a
  time), which is the per-connection serial semantics of the source;
* the redis replay guard (`SET key "1" "NX" "PX" ttl`) is an association
  list from key to its absolute expiry; a key is live while `now < expiry`.
-/

namespace ChatCore

/-- The recognized `config.ws` options (src/gateway/src/config.ts). -/
structure WsConfig where
  heartbeatIntervalMs : Nat
  heartbeatTimeoutMs : Nat
  maxQueueSize : Nat
  maxCiphertextBytes : Nat
  maxMessagesPerWindow : Nat
  messageWindowMs : Nat
  replayWindowMs : Nat
deriving Repr, DecidableEq

/-- Models `Math.abs (now - sent)` over the integers, stated on `Nat`. -/
def natDist (a b : Nat) : Nat := if a ≤ b then b - a else a - b

/-- Inbound `chat:send` payload.  `chatId = none` models a value for which
`Number.isFinite(payload.chatId)` is false. -/
structure ChatSendPayload where
  chatId : Option Nat
  clientMessageId : String
  nonce : String
  ciphertext : String
  sentAt : String
  metadata : List (String × String)
deriving Repr, DecidableEq

/-- One `message_envelopes` row (init.sql). -/
structure Envelope where
  id : Nat
  chatId : Nat
  senderUserId : Nat
  clientMessageId : String
  ciphertext : String
  nonce : String
  sentAtClient : String
  metadata : List (String × String)
  createdAt : Nat
deriving Repr, DecidableEq

/-- One `message_receipts` row (init.sql). -/
structure Receipt where
  messageId : Nat
  recipientUserId : Nat
  deliveredAt : Option Nat
  seenAt : Option Nat
deriving Repr, DecidableEq

/-- The durable relational store, restricted to the tables the pipeline
touches.  `chatMembers` holds `(chat_id, user_id)` pairs. -/
structure Db where
  chatMembers : List (Nat × Nat)
  envelopes : List Envelope
  receipts : List Receipt
  nextEnvelopeId : Nat
deriving Repr, DecidableEq

/-- Models `isChatMember` (server.ts): membership row exists. -/
def isChatMember (db : Db) (userId chatId : Nat) : Bool :=
  db.chatMembers.any (fun m => m.1 == chatId && m.2 == userId)

/-- Models `chatMemberIds` (server.ts): all member user ids of a chat. -/
def chatMemberIds (db : Db) (chatId : Nat) : List Nat :=
  (db.chatMembers.filter (fun m => m.1 == chatId)).map (·.2)

/-- Find the envelope stored under the idempotency key
`(sender_user_id, client_message_id)` (the `UNIQUE` constraint). -/
def findEnvelopeByKey (db : Db) (sender : Nat) (cmid : String) : Option Envelope :=
  db.envelopes.find? (fun e => e.senderUserId == sender && e.clientMessageId == cmid)

/-- Models `ON CONFLICT (message_id, recipient_user_id) DO NOTHING` for one
receipt row. -/
def addReceipt (rs : List Receipt) (r : Receipt) : List Receipt :=
  if rs.any (fun x => x.messageId == r.messageId && x.recipientUserId == r.recipientUserId)
  then rs else rs ++ [r]

/-- Insert a batch of receipt rows, each under the conflict guard. -/
def addReceipts (rs : List Receipt) (new : List Receipt) : List Receipt :=
  new.foldl addReceipt rs

/-- Result shape of `persistEnvelope`. -/
structure StoredEnvelope where
  id : Nat
  createdAt : Nat
  duplicate : Bool
deriving Repr, DecidableEq

/-- Models `persistEnvelope` (server.ts lines 84-148): conflict-aware insert of the
envelope keyed by `(sender_user_id, client_message_id)`.  On a fresh insert
one receipt row per other chat member is created (`NULL` timestamps); on
conflict the existing row is fetched and returned with `duplicate := true`
and the store is left unchanged.  In this serial embedding the
fetch-after-conflict always finds the row, so the
`"Failed to persist message envelope"` throw branch is unreachable. -/
def persistEnvelope (db : Db) (userId : Nat) (p : ChatSendPayload) (chatId now : Nat) :
    Db × StoredEnvelope :=
  match findEnvelopeByKey db userId p.clientMessageId with
  | some e => (db, ⟨e.id, e.createdAt, true⟩)
  | none =>
    let id := db.nextEnvelopeId
    let env : Envelope :=
      ⟨id, chatId, userId, p.clientMessageId, p.ciphertext, p.nonce, p.sentAt, p.metadata, now⟩
    let newReceipts :=
      ((chatMemberIds db chatId).filter (fun r => !(r == userId))).map
        (fun r => (⟨id, r, none, none⟩ : Receipt))
    (⟨db.chatMembers, db.envelopes ++ [env], addReceipts db.receipts newReceipts, id + 1⟩,
     ⟨id, now, false⟩)

/-- Models `updateDeliveredReceipts` (server.ts lines 150-164):
`SET delivered_at = COALESCE(delivered_at, NOW())` for the given message and
recipients; early return on an empty recipient list. -/
def updateDeliveredReceipts (db : Db) (messageId : Nat) (recips : List Nat) (now : Nat) : Db :=
  if recips.isEmpty then db
  else
    { db with
      receipts := db.receipts.map (fun r =>
        if r.messageId == messageId && recips.contains r.recipientUserId
        then { r with deliveredAt := some (r.deliveredAt.getD now) } else r) }

/-- One live socket connection: bound user, outbound write-buffer depth,
joined rooms, and whether it is still connected. -/
structure Conn where
  connId : Nat
  userId : Nat
  bufferLen : Nat
  rooms : List String
  connected : Bool
deriving Repr, DecidableEq

/-- The broadcast envelope object built in the `chat:send` handler. -/
structure WireEnvelope where
  messageId : Nat
  chatId : Nat
  senderId : Nat
  clientMessageId : String
  nonce : String
  ciphertext : String
  metadata : List (String × String)
  sentAtClient : String
  createdAt : Nat
  duplicate : Bool
deriving Repr, DecidableEq

/-- Outbound socket events of the gateway. -/
inductive OutEvent where
  | socketError (code message : String)
  | heartbeatAck (t : Nat)
  | joinAck (chatId : Nat) (ok : Bool)
  | chatAck (chatId : Nat) (clientMessageId : String) (messageId : Nat) (duplicate : Bool)
  | chatMessage (env : WireEnvelope)
  | receiptDelivered (chatId messageId : Nat) (recipientIds : List Nat) (at_ : Nat)
  | receiptSeen (chatId : Nat) (messageIds : List Nat) (userId : Nat) (at_ : Nat)
  | presenceChanged (userId : Nat) (state : String)
deriving Repr, DecidableEq

/-- Gateway process state: durable store, in-memory rate tracker
(`MESSAGE_RATE_TRACKER`), redis replay guard, redis presence connection
counters, per-socket heartbeat map, live connections and the log of
outbound writes `(connId, event)`. -/
structure GatewayState where
  db : Db
  rateTracker : List (Nat × List Nat)
  replayGuard : List ((Nat × String) × Nat)
  presenceConnections : List (Nat × Int)
  lastHeartbeat : List (Nat × Nat)
  conns : List Conn
  log : List (Nat × OutEvent)
deriving Repr, DecidableEq

/-- Append one outbound write to a single socket (`socket.emit`). -/
def emitTo (st : GatewayState) (connId : Nat) (ev : OutEvent) : GatewayState :=
  { st with log := st.log ++ [(connId, ev)] }

/-- Models `emitSocketError` (server.ts lines 44-46): a direct write, with no
buffer-depth check of its own. -/
def emitSocketError (st : GatewayState) (connId : Nat) (code message : String) : GatewayState :=
  emitTo st connId (.socketError code message)

/-- Room name `chat:<id>`. -/
def roomName (chatId : Nat) : String := "chat:" ++ toString chatId

/-- Models `io.to(room).emit(ev)`: one write per connected socket joined to the
room (the sender included when it is in the room). -/
def broadcastRoom (st : GatewayState) (room : String) (ev : OutEvent) : GatewayState :=
  { st with
    log := st.log ++
      ((st.conns.filter (fun c => c.connected && c.rooms.contains room)).map
        (fun c => (c.connId, ev))) }

/-- Models `io.emit(ev)`: one write per connected socket. -/
def broadcastAll (st : GatewayState) (ev : OutEvent) : GatewayState :=
  { st with
    log := st.log ++ ((st.conns.filter (·.connected)).map (fun c => (c.connId, ev))) }

/-- Models `socketBackpressure` (server.ts lines 40-42): the connection's outbound
write-buffer depth. -/
def connBuffer (conns : List Conn) (connId : Nat) : Nat :=
  ((conns.find? (fun c => c.connId == connId)).map (·.bufferLen)).getD 0

/-- Models `socket.disconnect(true)`: force-close the connection. -/
def disconnectConn (st : GatewayState) (connId : Nat) : GatewayState :=
  { st with
    conns := st.conns.map (fun c =>
      if c.connId == connId then { c with connected := false } else c) }

/-- Models `enforceBackpressure` (server.ts lines 48-53): allow the send when the
buffer depth is at most `maxQueueSize`; otherwise emit a backpressure
error and force-close. -/
def enforceBackpressure (cfg : WsConfig) (st : GatewayState) (connId : Nat) :
    GatewayState × Bool :=
  if connBuffer st.conns connId ≤ cfg.maxQueueSize then (st, true)
  else (disconnectConn (emitSocketError st connId "backpressure" "Socket queue overloaded") connId,
        false)

/-- The rate bucket currently recorded for a user. -/
def rateBucket (tracker : List (Nat × List Nat)) (userId : Nat) : List Nat :=
  ((tracker.find? (fun e => e.1 == userId)).map (·.2)).getD []

/-- Replace (or create) a user's rate bucket (`MESSAGE_RATE_TRACKER.set`). -/
def setRateBucket (tracker : List (Nat × List Nat)) (userId : Nat) (b : List Nat) :
    List (Nat × List Nat) :=
  if tracker.any (fun e => e.1 == userId)
  then tracker.map (fun e => if e.1 == userId then (userId, b) else e)
  else tracker ++ [(userId, b)]

/-- Models `consumeMessageQuota` (server.ts lines 55-66): sliding-window counter.
Timestamps older than the window are pruned; if the pruned bucket already
has `maxMessagesPerWindow` entries the send is refused (the pruned bucket
is still written back), otherwise `now` is appended. -/
def consumeMessageQuota (cfg : WsConfig) (tracker : List (Nat × List Nat))
    (userId now : Nat) : List (Nat × List Nat) × Bool :=
  let filtered := (rateBucket tracker userId).filter (fun ts => now - ts ≤ cfg.messageWindowMs)
  if cfg.maxMessagesPerWindow ≤ filtered.length
  then (setRateBucket tracker userId filtered, false)
  else (setRateBucket tracker userId (filtered ++ [now]), true)

/-- Expiry recorded for a replay-guard key, when present. -/
def guardLookup (g : List ((Nat × String) × Nat)) (k : Nat × String) : Option Nat :=
  ((g.find? (fun e => e.1 == k)).map (·.2))

/-- Redis `SET key "1" "NX" "PX" ttl`: fails while a live entry exists
(`now < expiry`), otherwise records the key with absolute expiry
`now + ttl`. -/
def redisSetNxPx (g : List ((Nat × String) × Nat)) (k : Nat × String) (now ttl : Nat) :
    List ((Nat × String) × Nat) × Bool :=
  match guardLookup g k with
  | some exp =>
    if now < exp then (g, false)
    else ((g.filter (fun e => !(e.1 == k))) ++ [(k, now + ttl)], true)
  | none => (g ++ [(k, now + ttl)], true)

/-- Models `withinReplayWindow` (server.ts lines 34-38): the claimed send
timestamp parses and lies within `replayWindowMs` of server time. -/
def withinReplayWindow (cfg : WsConfig) (parseDate : String → Option Nat)
    (sentAt : String) (now : Nat) : Bool :=
  match parseDate sentAt with
  | none => false
  | some sent => natDist now sent ≤ cfg.replayWindowMs

/-- Shape check of the `chat:send` handler: finite chat id and non-empty
required string fields (empty strings are falsy in the source). -/
def shapeOk (p : ChatSendPayload) : Bool :=
  p.chatId.isSome && !(p.clientMessageId == "") && !(p.nonce == "") &&
    !(p.ciphertext == "") && !(p.sentAt == "")

/-- Models `Array.from(new Set(l))`: dedup keeping first occurrences. -/
def dedupNat (l : List Nat) : List Nat :=
  l.foldl (fun acc x => if acc.contains x then acc else acc ++ [x]) []

/-- Outcome summary of one `chat:send`: an early rejection (the
`socket:error` code), a full success, or a persist that was followed by a
backpressure force-close before the acknowledgment. -/
inductive SendOutcome where
  | rejected (code : String)
  | sent (messageId createdAt : Nat) (duplicate : Bool)
  | sentClosed (messageId createdAt : Nat) (duplicate : Bool)
deriving Repr, DecidableEq

/-- The `chat:send` handler (server.ts lines 295-389): quota, shape,
replay-window, size, membership and nonce checks in order, then idempotent
persistence, backpressure-guarded acknowledgment, room broadcast and
delivered receipts. -/
def chatSend (cfg : WsConfig) (parseDate : String → Option Nat) (st : GatewayState)
    (connId userId now : Nat) (p : ChatSendPayload) : GatewayState × SendOutcome :=
  let qr := consumeMessageQuota cfg st.rateTracker userId now
  let st1 := { st with rateTracker := qr.1 }
  if !qr.2 then
    (emitSocketError st1 connId "rate_limited" "Too many messages", .rejected "rate_limited")
  else if !shapeOk p then
    (emitSocketError st1 connId "bad_payload" "Invalid payload", .rejected "bad_payload")
  else if !withinReplayWindow cfg parseDate p.sentAt now then
    (emitSocketError st1 connId "replay_window" "Message outside replay window",
     .rejected "replay_window")
  else if cfg.maxCiphertextBytes < p.ciphertext.utf8ByteSize then
    (emitSocketError st1 connId "payload_too_large" "Ciphertext too large",
     .rejected "payload_too_large")
  else
    let chatId := p.chatId.getD 0
    if !isChatMember st1.db userId chatId then
      (emitSocketError st1 connId "forbidden" "Not a member of this chat", .rejected "forbidden")
    else
      let gr := redisSetNxPx st1.replayGuard (userId, p.nonce) now cfg.replayWindowMs
      let st2 := { st1 with replayGuard := gr.1 }
      if !gr.2 then
        (emitSocketError st2 connId "replay_nonce" "Nonce already used", .rejected "replay_nonce")
      else
        let pe := persistEnvelope st2.db userId p chatId now
        let st3 := { st2 with db := pe.1 }
        let stored := pe.2
        let env : WireEnvelope :=
          ⟨stored.id, chatId, userId, p.clientMessageId, p.nonce, p.ciphertext, p.metadata,
           p.sentAt, stored.createdAt, stored.duplicate⟩
        let bp := enforceBackpressure cfg st3 connId
        if !bp.2 then (bp.1, .sentClosed stored.id stored.createdAt stored.duplicate)
        else
          let st4 := emitTo bp.1 connId
            (.chatAck chatId p.clientMessageId stored.id stored.duplicate)
          let st5 := broadcastRoom st4 (roomName chatId) (.chatMessage env)
          let roomConns := st5.conns.filter
            (fun c => c.connected && c.rooms.contains (roomName chatId))
          let uniq := dedupNat ((roomConns.map (·.userId)).filter (fun i => !(i == userId)))
          let st6 := { st5 with db := updateDeliveredReceipts st5.db stored.id uniq now }
          let st7 :=
            if 0 < uniq.length
            then broadcastRoom st6 (roomName chatId) (.receiptDelivered chatId stored.id uniq now)
            else st6
          (st7, .sent stored.id stored.createdAt stored.duplicate)

/-- Does a receipt row fall under the `chat:seen` UPDATE's WHERE clause
(join with `message_envelopes` on the chat, recipient is the caller, and
the message id is among the submitted ids)? -/
def seenTarget (db : Db) (chatId uid : Nat) (ids : List Nat) (r : Receipt) : Bool :=
  r.recipientUserId == uid && ids.contains r.messageId &&
    db.envelopes.any (fun m => m.id == r.messageId && m.chatId == chatId)

/-- The `chat:seen` UPDATE (server.ts lines 408-420):
`SET seen_at = COALESCE(seen_at, NOW())` over the targeted rows, returning
the touched message ids (`RETURNING r.message_id`). -/
def applySeen (db : Db) (chatId uid : Nat) (ids : List Nat) (now : Nat) : Db × List Nat :=
  ({ db with
     receipts := db.receipts.map (fun r =>
       if seenTarget db chatId uid ids r
       then { r with seenAt := some (r.seenAt.getD now) } else r) },
   (db.receipts.filter (seenTarget db chatId uid ids)).map (·.messageId))

/-- Outcome summary of one `chat:seen`. -/
inductive SeenOutcome where
  | rejected (code : String)
  | updatedIds (ids : List Nat)
  | noop
deriving Repr, DecidableEq

/-- The `chat:seen` handler (server.ts lines 391-435): validation,
membership, first-write-wins seen update, broadcast only when at least one
row was touched. -/
def chatSeen (st : GatewayState) (connId userId now : Nat)
    (chatIdRaw : Option Nat) (messageIds : List (Option Nat)) : GatewayState × SeenOutcome :=
  match chatIdRaw with
  | none =>
    (emitSocketError st connId "bad_payload" "Invalid payload", .rejected "bad_payload")
  | some chatId =>
    if messageIds.isEmpty then
      (emitSocketError st connId "bad_payload" "Invalid payload", .rejected "bad_payload")
    else if !isChatMember st.db userId chatId then
      (emitSocketError st connId "forbidden" "Not a member of this chat", .rejected "forbidden")
    else
      let ids := messageIds.filterMap id
      if ids.isEmpty then (st, .noop)
      else
        let upd := applySeen st.db chatId userId ids now
        let st1 := { st with db := upd.1 }
        if upd.2.isEmpty then (st1, .noop)
        else
          (broadcastRoom st1 (roomName chatId) (.receiptSeen chatId upd.2 userId now),
           .updatedIds upd.2)

/-- The `presence:heartbeat` handler (server.ts lines 249-254): refresh the
socket's heartbeat stamp, then backpressure-guarded ack. -/
def heartbeat (cfg : WsConfig) (st : GatewayState) (connId _userId now : Nat) : GatewayState :=
  let st1 := { st with
    lastHeartbeat :=
      if st.lastHeartbeat.any (fun e => e.1 == connId)
      then st.lastHeartbeat.map (fun e => if e.1 == connId then (connId, now) else e)
      else st.lastHeartbeat ++ [(connId, now)] }
  let bp := enforceBackpressure cfg st1 connId
  if !bp.2 then bp.1 else emitTo bp.1 connId (.heartbeatAck now)

/-- Make a connection join a room (`socket.join`, local registry). -/
def joinRoom (st : GatewayState) (connId : Nat) (room : String) : GatewayState :=
  { st with
    conns := st.conns.map (fun c =>
      if c.connId == connId && !(c.rooms.contains room)
      then { c with rooms := c.rooms ++ [room] } else c) }

/-- The `chat:join` handler (server.ts lines 256-269): id validation
(`!payload.chatId` also rejects zero), membership re-verification, local
room join, then backpressure-guarded ack. -/
def chatJoin (cfg : WsConfig) (st : GatewayState) (connId userId : Nat)
    (chatIdRaw : Option Nat) : GatewayState :=
  match chatIdRaw with
  | none => emitSocketError st connId "invalid_chat" "Invalid chat id"
  | some chatId =>
    if chatId == 0 then emitSocketError st connId "invalid_chat" "Invalid chat id"
    else if !isChatMember st.db userId chatId then
      emitSocketError st connId "forbidden" "Not a member of this chat"
    else
      let st1 := joinRoom st connId (roomName chatId)
      let bp := enforceBackpressure cfg st1 connId
      if !bp.2 then bp.1 else emitTo bp.1 connId (.joinAck chatId true)

/-- Presence counter for a user (redis hash `presence:connections`). -/
def presenceCount (pc : List (Nat × Int)) (userId : Nat) : Int :=
  ((pc.find? (fun e => e.1 == userId)).map (·.2)).getD 0

/-- Write back a presence counter. -/
def setPresenceCount (pc : List (Nat × Int)) (userId : Nat) (v : Int) : List (Nat × Int) :=
  if pc.any (fun e => e.1 == userId)
  then pc.map (fun e => if e.1 == userId then (userId, v) else e)
  else pc ++ [(userId, v)]

/-- The `disconnect` handler (server.ts lines 437-452): drop the heartbeat
entry, delete the sender's whole rate bucket
(`MESSAGE_RATE_TRACKER.delete(userId)`), decrement the presence counter and
broadcast offline when it reaches zero. -/
def handleDisconnect (st : GatewayState) (connId userId : Nat) : GatewayState :=
  let st1 := { st with
    lastHeartbeat := st.lastHeartbeat.filter (fun e => !(e.1 == connId)),
    rateTracker := st.rateTracker.filter (fun e => !(e.1 == userId)) }
  let remaining := presenceCount st1.presenceConnections userId - 1
  let st2 := { st1 with
    presenceConnections := setPresenceCount st1.presenceConnections userId remaining }
  if remaining ≤ 0 then broadcastAll st2 (.presenceChanged userId "offline") else st2

/-! ### REST chat routes (`/v1/chats/:chatId/messages`)

Shallow embedding of the chat route handlers.  The typebox schema check
runs before the handler body; `Number(...)` conversions that may be `NaN`
are modelled as `Option Int` inputs. -/

/-- Body of `POST /v1/chats/:chatId/messages`. -/
structure RestBody where
  clientMessageId : String
  nonce : String
  ciphertext : String
  sentAt : String
  metadata : List (String × String)
deriving Repr, DecidableEq

/-- The typebox schema of the POST body: only `minLength` constraints — in
particular there is no maximum on `ciphertext`. -/
def schemaOkBody (b : RestBody) : Bool :=
  4 ≤ b.clientMessageId.length && 8 ≤ b.nonce.length &&
    16 ≤ b.ciphertext.length && 10 ≤ b.sentAt.length

/-- Response of the POST handler. -/
inductive RestPostResult where
  | badRequest (message : String)
  | forbidden
  | duplicateOf (messageId : Nat)
  | created (messageId : Nat)
deriving Repr, DecidableEq

/-- Models `POST /v1/chats/:chatId/messages` handler: schema check, chat id
validation, membership check, then a SELECT by `(sender, clientMessageId)`
— duplicate response if found — else a plain INSERT plus receipt creation.
The handler performs no ciphertext-size check anywhere. -/
def restPostMessage (db : Db) (userId : Nat) (chatIdParam : Option Int) (b : RestBody)
    (now : Nat) : Db × RestPostResult :=
  if !schemaOkBody b then (db, .badRequest "schema")
  else
    match chatIdParam with
    | none => (db, .badRequest "Invalid chat id")
    | some ci =>
      if ci ≤ 0 then (db, .badRequest "Invalid chat id")
      else
        let chatId := ci.toNat
        if !isChatMember db userId chatId then (db, .forbidden)
        else
          match findEnvelopeByKey db userId b.clientMessageId with
          | some e => (db, .duplicateOf e.id)
          | none =>
            let id := db.nextEnvelopeId
            let env : Envelope :=
              ⟨id, chatId, userId, b.clientMessageId, b.ciphertext, b.nonce, b.sentAt,
               b.metadata, now⟩
            let newReceipts :=
              ((chatMemberIds db chatId).filter (fun r => !(r == userId))).map
                (fun r => (⟨id, r, none, none⟩ : Receipt))
            (⟨db.chatMembers, db.envelopes ++ [env], addReceipts db.receipts newReceipts, id + 1⟩,
             .created id)

/-- Models `limit` computation of the GET handler:
`Number(query.limit ?? 50)` clamped into `[1, 200]`, with `50` on a
non-finite value (`none`). -/
def clampLimit (limitNum : Option Int) : Nat :=
  match limitNum with
  | none => 50
  | some v => (min (max v 1) 200).toNat

/-- Models `beforeId` computation of the GET handler: kept only when finite and
positive. -/
def boundBefore (beforeIdNum : Option Int) : Option Nat :=
  match beforeIdNum with
  | none => none
  | some v => if 0 < v then some v.toNat else none

/-- WHERE clause of the page query:
`chat_id = $1 AND ($2 IS NULL OR id < $2)`. -/
def pageFilter (chatId : Nat) (beforeId : Option Nat) (e : Envelope) : Bool :=
  e.chatId == chatId &&
    (match beforeId with
     | none => true
     | some b => e.id < b)

/-- Models `ORDER BY me.id DESC`. -/
def envIdGe (a b : Envelope) : Prop := b.id ≤ a.id

instance : DecidableRel envIdGe := fun a b => Nat.decLe b.id a.id

instance : IsTotal Envelope envIdGe :=
  ⟨fun a b => Nat.le_total b.id a.id⟩

instance : IsTrans Envelope envIdGe :=
  ⟨fun _ _ _ h1 h2 => Nat.le_trans h2 h1⟩

/-- The page query: filter by chat and bound, sort by id descending, take
`limit` rows. -/
def pageQuery (envs : List Envelope) (chatId : Nat) (beforeId : Option Nat) (limit : Nat) :
    List Envelope :=
  ((envs.filter (pageFilter chatId beforeId)).insertionSort envIdGe).take limit

/-- Response of the GET handler. -/
inductive RestGetResult where
  | badRequest (message : String)
  | forbidden
  | page (items : List Envelope)
deriving Repr, DecidableEq

/-- Models `GET /v1/chats/:chatId/messages` handler: chat id validation,
membership check, then the reverse-chronological page query. -/
def restGetMessages (db : Db) (userId : Nat) (chatIdParam : Option Int)
    (limitNum beforeIdNum : Option Int) : RestGetResult :=
  match chatIdParam with
  | none => .badRequest "Invalid chat id"
  | some ci =>
    if ci ≤ 0 then .badRequest "Invalid chat id"
    else
      let chatId := ci.toNat
      if !isChatMember db userId chatId then .forbidden
      else .page (pageQuery db.envelopes chatId (boundBefore beforeIdNum) (clampLimit limitNum))

/-! ### Session manager (`auth/routes.ts` service functions)

The bcrypt pair is abstracted as parameters `hash : String → String`
(`bcrypt.hash`) and `check : String → String → Bool` (`bcrypt.compare`).
A signed JWT is modelled as its payload tagged with the key it was signed
under; signature verification compares the key.  The compound refresh
token `jwt + "." + secret` is modelled by its split result: fewer than 3
dot-separated parts is `malformed`, otherwise the pair of the re-joined
JWT and the popped secret. -/

/-- One `users` row. -/
structure UserRow where
  id : Nat
  username : String
  passwordHash : String
deriving Repr, DecidableEq

/-- One `refresh_tokens` row (init.sql lines 10-23); uuids are modelled as
`Nat` drawn from `nextRowId`. -/
structure RefreshTokenRow where
  id : Nat
  sessionId : String
  userId : Nat
  tokenHash : String
  isRevoked : Bool
  replacedBy : Option Nat
  createdAt : Nat
deriving Repr, DecidableEq

/-- Durable auth store. -/
structure AuthDb where
  users : List UserRow
  refreshTokens : List RefreshTokenRow
  nextRowId : Nat
deriving Repr, DecidableEq

/-- The `tokenType` discriminator. -/
inductive TokenKind where
  | access
  | refresh
deriving Repr, DecidableEq

/-- Claims carried by a signed token. -/
structure JwtPayload where
  userId : Nat
  username : String
  sessionId : String
  tokenType : TokenKind
deriving Repr, DecidableEq

/-- A signed token: payload plus the key it was signed with. -/
structure SignedToken where
  key : String
  payload : JwtPayload
deriving Repr, DecidableEq

/-- A compound refresh credential after the dot-split of
`rotateRefreshToken`: `malformed` models `parts.length < 3`. -/
inductive CompoundToken where
  | malformed
  | wellFormed (jwt : SignedToken) (secret : String)
deriving Repr, DecidableEq

/-- An HTTP error as produced by `fastify.httpErrors` and rendered by the
global error handler (`statusCode` + `message`). -/
structure HttpError where
  status : Nat
  message : String
deriving Repr, DecidableEq

/-- Models `fastify.httpErrors.unauthorized(msg)`. -/
def unauthorizedE (message : String) : HttpError := ⟨401, message⟩

/-- JWT secrets from config. -/
structure AuthConfig where
  accessSecret : String
  refreshSecret : String
deriving Repr, DecidableEq

/-- The token bundle returned by login/rotate. -/
structure AuthResult where
  accessToken : SignedToken
  refreshToken : CompoundToken
  sessionId : String
  userId : Nat
  username : String
deriving Repr, DecidableEq

/-- Models `verifyRefreshJwt`: signature check against the refresh secret;
`none` models the verifier throwing. -/
def verifyRefreshJwt (cfg : AuthConfig) (t : SignedToken) : Option JwtPayload :=
  if t.key == cfg.refreshSecret then some t.payload else none

/-- Models `loginWithPassword` (auth service): user lookup, bcrypt compare, new
session id, first refresh-credential row, fresh access/refresh pair.  Both
failure modes throw `unauthorized` with one shared message. -/
def loginWithPassword (check : String → String → Bool) (hash : String → String)
    (cfg : AuthConfig) (db : AuthDb) (username password freshSessionId freshSecret : String)
    (now : Nat) : Except HttpError (AuthDb × AuthResult) :=
  match db.users.find? (fun u => u.username == username) with
  | none => .error (unauthorizedE "Invalid username or password")
  | some user =>
    if check password user.passwordHash then
      let row : RefreshTokenRow :=
        ⟨db.nextRowId, freshSessionId, user.id, hash freshSecret, false, none, now⟩
      .ok ({ db with refreshTokens := db.refreshTokens ++ [row], nextRowId := db.nextRowId + 1 },
           ⟨⟨cfg.accessSecret, ⟨user.id, user.username, freshSessionId, .access⟩⟩,
            .wellFormed ⟨cfg.refreshSecret, ⟨user.id, user.username, freshSessionId, .refresh⟩⟩
              freshSecret,
            freshSessionId, user.id, user.username⟩)
    else .error (unauthorizedE "Invalid username or password")

/-- Models `SELECT ... WHERE session_id = $1 ORDER BY created_at DESC LIMIT 1`. -/
def latestRowForSession (db : AuthDb) (sid : String) : Option RefreshTokenRow :=
  (db.refreshTokens.filter (fun r => r.sessionId == sid)).foldl
    (fun acc r =>
      match acc with
      | none => some r
      | some b => if b.createdAt ≤ r.createdAt then some r else some b)
    none

/-- Models `rotateRefreshToken` (auth service): split/parse, signature and kind
check, chain-row lookup, revoked check, secret-hash check, user lookup,
then: insert a new refresh-credential row under a brand-new session id and
mark the prior row revoked pointing at the new row.  The signature-failure
branch rethrows (it is not an `httpErrors.unauthorized`), surfacing as a
500 through the global error handler. -/
def rotateRefreshToken (check : String → String → Bool) (hash : String → String)
    (cfg : AuthConfig) (db : AuthDb) (tok : CompoundToken)
    (freshSessionId freshSecret : String) (now : Nat) :
    Except HttpError (AuthDb × AuthResult) :=
  match tok with
  | .malformed => .error (unauthorizedE "Malformed refresh token")
  | .wellFormed jwt secret =>
    match verifyRefreshJwt cfg jwt with
    | none => .error ⟨500, "jwt verification failed"⟩
    | some payload =>
      if !(payload.tokenType == .refresh) then .error (unauthorizedE "Invalid token type")
      else
        match latestRowForSession db payload.sessionId with
        | none => .error (unauthorizedE "Refresh token revoked")
        | some token =>
          if token.isRevoked then .error (unauthorizedE "Refresh token revoked")
          else if !check secret token.tokenHash then
            .error (unauthorizedE "Invalid refresh token")
          else
            match db.users.find? (fun u => u.id == token.userId) with
            | none => .error (unauthorizedE "User no longer exists")
            | some user =>
              let newRow : RefreshTokenRow :=
                ⟨db.nextRowId, freshSessionId, user.id, hash freshSecret, false, none, now⟩
              let tokens1 := (db.refreshTokens ++ [newRow]).map (fun r =>
                if r.id == token.id
                then { r with isRevoked := true, replacedBy := some newRow.id } else r)
              .ok ({ db with refreshTokens := tokens1, nextRowId := db.nextRowId + 1 },
                   ⟨⟨cfg.accessSecret, ⟨user.id, user.username, freshSessionId, .access⟩⟩,
                    .wellFormed
                      ⟨cfg.refreshSecret, ⟨user.id, user.username, freshSessionId, .refresh⟩⟩
                      freshSecret,
                    freshSessionId, user.id, user.username⟩)

/-- Models `revokeSession`: mark every row of the session revoked (idempotent). -/
def revokeSession (db : AuthDb) (sid : String) : AuthDb :=
  { db with
    refreshTokens := db.refreshTokens.map (fun r =>
      if r.sessionId == sid then { r with isRevoked := true } else r) }

/-! ### The rotation chain (for the N-fold rotation claim)

`s i` / `sec i` are the fresh session ids and secrets drawn at step `i`
(`s 0`, `sec 0` at login); rotation `i` runs at time `i`. -/

/-- The compound refresh token issued at step `i` of the chain. -/
def chainTok (cfg : AuthConfig) (u : UserRow) (s sec : Nat → String) (i : Nat) :
    CompoundToken :=
  .wellFormed ⟨cfg.refreshSecret, ⟨u.id, u.username, s i, .refresh⟩⟩ (sec i)

/-- The refresh-credential row of step `i` as it stands after `n`
rotations: revoked and pointing at its replacement precisely when a later
step exists. -/
def chainRow (hash : String → String) (u : UserRow) (s sec : Nat → String) (i n : Nat) :
    RefreshTokenRow :=
  ⟨i, s i, u.id, hash (sec i),
   decide (i < n),
   if i < n then some (i + 1) else none,
   i⟩

/-- The auth store after login followed by `n` rotations. -/
def chainDb (hash : String → String) (u : UserRow) (s sec : Nat → String) (n : Nat) :
    AuthDb :=
  ⟨[u], (List.range (n + 1)).map (fun i => chainRow hash u s sec i n), n + 1⟩

/-- The bundle returned by step `n` of the chain. -/
def chainResult (cfg : AuthConfig) (u : UserRow) (s sec : Nat → String) (n : Nat) :
    AuthResult :=
  ⟨⟨cfg.accessSecret, ⟨u.id, u.username, s n, .access⟩⟩,
   chainTok cfg u s sec n, s n, u.id, u.username⟩

/-- Models `n` sequential rotations, each using the compound token returned by
the previous step, starting from the store left by a successful login. -/
def rotateChain (check : String → String → Bool) (hash : String → String)
    (cfg : AuthConfig) (u : UserRow) (s sec : Nat → String) :
    Nat → Except HttpError (AuthDb × AuthResult)
  | 0 => .ok (chainDb hash u s sec 0, chainResult cfg u s sec 0)
  | n + 1 =>
    match rotateChain check hash cfg u s sec n with
    | .error e => .error e
    | .ok (db, res) =>
      rotateRefreshToken check hash cfg db res.refreshToken (s (n + 1)) (sec (n + 1)) (n + 1)

deriving instance DecidableEq for Except

/-! ## Helper lemmas -/

theorem addReceipts_append (rs : List Receipt) (new : List Receipt) :
    ∃ tail, addReceipts rs new = rs ++ tail := by
  induction new generalizing rs with
  | nil => exact ⟨[], (List.append_nil rs).symm⟩
  | cons r new ih =>
    unfold addReceipts at ih ⊢
    show ∃ tail, List.foldl addReceipt (addReceipt rs r) new = rs ++ tail
    by_cases h :
        (rs.any fun x => x.messageId == r.messageId &&
          x.recipientUserId == r.recipientUserId) = true
    · rw [show addReceipt rs r = rs from by unfold addReceipt; rw [if_pos h]]
      exact ih rs
    · rw [show addReceipt rs r = rs ++ [r] from by unfold addReceipt; rw [if_neg h]]
      obtain ⟨tail, htail⟩ := ih (rs ++ [r])
      exact ⟨[r] ++ tail, by rw [htail, List.append_assoc]⟩

theorem updateDeliveredReceipts_envelopes (db : Db) (mid : Nat) (recips : List Nat)
    (now : Nat) : (updateDeliveredReceipts db mid recips now).envelopes = db.envelopes := by
  unfold updateDeliveredReceipts
  split <;> rfl

theorem updateDeliveredReceipts_keys (db : Db) (mid : Nat) (recips : List Nat) (now : Nat) :
    (updateDeliveredReceipts db mid recips now).receipts.map
        (fun r => (r.messageId, r.recipientUserId)) =
      db.receipts.map (fun r => (r.messageId, r.recipientUserId)) := by
  unfold updateDeliveredReceipts
  split
  · rfl
  · simp only [List.map_map]
    refine List.map_congr_left ?_
    intro r _
    simp only [Function.comp]
    split <;> rfl

theorem coalesceDelivered_cases (r : Receipt) (mid : Nat) (recips : List Nat) (now : Nat) :
    ((if (r.messageId == mid && recips.contains r.recipientUserId) = true
        then { r with deliveredAt := some (r.deliveredAt.getD now) } else r) = r) ∨
      (r.deliveredAt = none ∧
        (if (r.messageId == mid && recips.contains r.recipientUserId) = true
          then { r with deliveredAt := some (r.deliveredAt.getD now) } else r) =
          { r with deliveredAt := some now }) := by
  split
  · cases hd : r.deliveredAt with
    | some t =>
      left
      obtain ⟨m, rec, d, sn⟩ := r
      simp only at hd
      subst hd
      rfl
    | none =>
      right
      refine ⟨rfl, ?_⟩
      obtain ⟨m, rec, d, sn⟩ := r
      simp only at hd
      subst hd
      rfl
  · left
    rfl

theorem coalesceSeen_cases (db : Db) (r : Receipt) (chatId uid : Nat) (ids : List Nat)
    (now : Nat) :
    ((if seenTarget db chatId uid ids r
        then { r with seenAt := some (r.seenAt.getD now) } else r) = r) ∨
      (r.seenAt = none ∧
        (if seenTarget db chatId uid ids r
          then { r with seenAt := some (r.seenAt.getD now) } else r) =
          { r with seenAt := some now }) := by
  split
  · cases hs : r.seenAt with
    | some t =>
      left
      obtain ⟨m, rec, d, sn⟩ := r
      simp only at hs
      subst hs
      rfl
    | none =>
      right
      refine ⟨rfl, ?_⟩
      obtain ⟨m, rec, d, sn⟩ := r
      simp only at hs
      subst hs
      rfl
  · left
    rfl

/-! ## Claims -/

/-- C6 (confirmed).  Receipt delivered-at and seen-at timestamps only
ever transition from `null` to a set value and, once set, are never
altered: the delivered-receipt update (`updateDeliveredReceipts`) maps a
row with a set delivered-at to itself and never touches seen-at; the
`chat:seen` update (`applySeen`) maps a row with a set seen-at to itself
and never touches delivered-at (so a seen update for an already-seen
message leaves its timestamp unchanged); and the envelope insert
(`persistEnvelope`) never rewrites an existing receipt row. -/
theorem c6_receipt_timestamps_monotone :
    (∀ (db : Db) (mid : Nat) (recips : List Nat) (now i : Nat) (r r2 : Receipt),
        db.receipts.get? i = some r →
        (updateDeliveredReceipts db mid recips now).receipts.get? i = some r2 →
        (∀ t, r.deliveredAt = some t → r2 = r) ∧
          (r2.deliveredAt = r.deliveredAt ∨ r2.deliveredAt = some now) ∧
          r2.seenAt = r.seenAt ∧ r2.messageId = r.messageId ∧
          r2.recipientUserId = r.recipientUserId) ∧
    (∀ (db : Db) (chatId uid : Nat) (ids : List Nat) (now i : Nat) (r r2 : Receipt),
        db.receipts.get? i = some r →
        (applySeen db chatId uid ids now).1.receipts.get? i = some r2 →
        (∀ t, r.seenAt = some t → r2 = r) ∧
          (r2.seenAt = r.seenAt ∨ r2.seenAt = some now) ∧
          r2.deliveredAt = r.deliveredAt ∧ r2.messageId = r.messageId ∧
          r2.recipientUserId = r.recipientUserId) ∧
    (∀ (db : Db) (uid : Nat) (p : ChatSendPayload) (chatId now i : Nat),
        i < db.receipts.length →
        (persistEnvelope db uid p chatId now).1.receipts.get? i = db.receipts.get? i) := by
  refine ⟨?_, ?_, ?_⟩
  · intro db mid recips now i r r2 h1 h2
    unfold updateDeliveredReceipts at h2
    split at h2
    · rw [h1] at h2
      obtain rfl : r = r2 := Option.some.inj h2
      exact ⟨fun t _ => rfl, Or.inl rfl, rfl, rfl, rfl⟩
    · rw [List.get?_map, h1] at h2
      have hfr := Option.some.inj h2
      simp only at hfr
      rcases coalesceDelivered_cases r mid recips now with heq | ⟨hnone, heq⟩
      · rw [heq] at hfr
        subst hfr
        exact ⟨fun t _ => rfl, Or.inl rfl, rfl, rfl, rfl⟩
      · rw [heq] at hfr
        subst hfr
        refine ⟨?_, Or.inr rfl, rfl, rfl, rfl⟩
        intro t ht
        rw [hnone] at ht
        simp at ht
  · intro db chatId uid ids now i r r2 h1 h2
    unfold applySeen at h2
    simp only at h2
    rw [List.get?_map, h1] at h2
    have hfr := Option.some.inj h2
    simp only at hfr
    rcases coalesceSeen_cases db r chatId uid ids now with heq | ⟨hnone, heq⟩
    · rw [heq] at hfr
      subst hfr
      exact ⟨fun t _ => rfl, Or.inl rfl, rfl, rfl, rfl⟩
    · rw [heq] at hfr
      subst hfr
      refine ⟨?_, Or.inr rfl, rfl, rfl, rfl⟩
      intro t ht
      rw [hnone] at ht
      simp at ht
  · intro db uid p chatId now i hi
    unfold persistEnvelope
    cases hfind : findEnvelopeByKey db uid p.clientMessageId with
    | some e => rfl
    | none =>
      simp only
      obtain ⟨tail, htail⟩ := addReceipts_append db.receipts
        (((chatMemberIds db chatId).filter (fun r => !(r == uid))).map
          (fun r => (⟨db.nextEnvelopeId, r, none, none⟩ : Receipt)))
      rw [htail]
      exact List.get?_append hi

/-- Witness for C6 at a receipt that already carries both timestamps. -/
theorem c6_witness :
    ((⟨[], [], [⟨1, 2, some 5, some 6⟩], 1⟩ : Db).receipts.get? 0 =
      some ⟨1, 2, some 5, some 6⟩) ∧
    ((updateDeliveredReceipts ⟨[], [], [⟨1, 2, some 5, some 6⟩], 1⟩ 1 [2] 9).receipts.get? 0 =
      some ⟨1, 2, some 5, some 6⟩) ∧
    ((∀ t, (some 5 : Option Nat) = some t →
        (⟨1, 2, some 5, some 6⟩ : Receipt) = ⟨1, 2, some 5, some 6⟩) ∧
      ((some 5 : Option Nat) = some 5 ∨ (some 5 : Option Nat) = some 9) ∧
      (some 6 : Option Nat) = some 6 ∧ (1 : Nat) = 1 ∧ (2 : Nat) = 2) :=
  ⟨by decide, by decide,
   c6_receipt_timestamps_monotone.1 ⟨[], [], [⟨1, 2, some 5, some 6⟩], 1⟩ 1 [2] 9 0
     ⟨1, 2, some 5, some 6⟩ ⟨1, 2, some 5, some 6⟩ (by decide) (by decide)⟩

/-- C7 (corrected: holds only while no disconnect of the sender
intervenes).  Whenever the count of a sender's sends inside the sliding
window has reached the configured maximum, a `chat:send` is rejected with
`RateLimited` and nothing else in the pipeline state is touched: the
resulting state differs from the input state only in the pruned rate
bucket and the emitted `socket:error`, and the outcome is the rejection. -/
theorem c7_rate_limited_rejects (cfg : WsConfig) (parseDate : String → Option Nat)
    (st : GatewayState) (connId userId now : Nat) (p : ChatSendPayload)
    (hfull : cfg.maxMessagesPerWindow ≤
      ((rateBucket st.rateTracker userId).filter
        (fun ts => now - ts ≤ cfg.messageWindowMs)).length) :
    chatSend cfg parseDate st connId userId now p =
      ({ st with
          rateTracker := setRateBucket st.rateTracker userId
            ((rateBucket st.rateTracker userId).filter
              (fun ts => now - ts ≤ cfg.messageWindowMs)),
          log := st.log ++ [(connId, .socketError "rate_limited" "Too many messages")] },
       .rejected "rate_limited") := by
  unfold chatSend consumeMessageQuota
  rw [if_pos hfull]
  rfl

/-- Witness for C7: a sender whose window already holds the maximum is
rejected and the store, guard, connections and presence are untouched. -/
theorem c7_witness :
    ((⟨10000, 30000, 200, 12000, 2, 10000, 300000⟩ : WsConfig).maxMessagesPerWindow ≤
      ((rateBucket [(1, [100, 200])] 1).filter (fun ts => 250 - ts ≤ 10000)).length) ∧
    chatSend ⟨10000, 30000, 200, 12000, 2, 10000, 300000⟩ (fun _ => none)
        ⟨⟨[(7, 1)], [], [], 1⟩, [(1, [100, 200])], [], [(1, 1)], [],
         [⟨10, 1, 0, ["chat:7"], true⟩], []⟩ 10 1 250 ⟨some 7, "m1", "n1", "c", "T", []⟩ =
      (⟨⟨[(7, 1)], [], [], 1⟩, setRateBucket [(1, [100, 200])] 1 [100, 200], [], [(1, 1)], [],
        [⟨10, 1, 0, ["chat:7"], true⟩],
        [(10, .socketError "rate_limited" "Too many messages")]⟩,
       .rejected "rate_limited") :=
  ⟨by decide,
   by
    have h := c7_rate_limited_rejects ⟨10000, 30000, 200, 12000, 2, 10000, 300000⟩
      (fun _ => none)
      ⟨⟨[(7, 1)], [], [], 1⟩, [(1, [100, 200])], [], [(1, 1)], [],
       [⟨10, 1, 0, ["chat:7"], true⟩], []⟩ 10 1 250 ⟨some 7, "m1", "n1", "c", "T", []⟩
      (by decide)
    rw [h]
    decide⟩

/-- Counterexample to C7 as stated: with a per-window maximum of 1 the
second send is rejected, but after one of the sender's connections
disconnects (which deletes the sender's whole rate bucket) a third send
inside the very same window succeeds, so the rejection does not persist
until the window rolls over. -/
theorem c7_counterexample :
    let cfg : WsConfig := ⟨10000, 30000, 200, 12000, 1, 1000, 300000⟩
    let pd : String → Option Nat := fun s =>
      if s == "T1" then some 100 else if s == "T2" then some 200 else
      if s == "T3" then some 400 else none
    let st0 : GatewayState :=
      ⟨⟨[(7, 1)], [], [], 1⟩, [], [], [(1, 2)], [],
       [⟨10, 1, 0, ["chat:7"], true⟩, ⟨12, 1, 0, [], true⟩], []⟩
    let r1 := chatSend cfg pd st0 10 1 100 ⟨some 7, "m1", "n1", "ctext", "T1", []⟩
    let r2 := chatSend cfg pd r1.1 10 1 200 ⟨some 7, "m2", "n2", "ctext", "T2", []⟩
    let r3 := chatSend cfg pd (handleDisconnect r2.1 12 1) 10 1 400
      ⟨some 7, "m3", "n3", "ctext", "T3", []⟩
    r1.2 = .sent 1 100 false ∧ r2.2 = .rejected "rate_limited" ∧
      400 - 100 ≤ cfg.messageWindowMs ∧ r3.2 = .sent 2 400 false := by
  decide

theorem disconnectConn_closes (st : GatewayState) (connId : Nat) :
    ∀ c ∈ (disconnectConn st connId).conns, c.connId = connId → c.connected = false := by
  intro c hc hid
  unfold disconnectConn at hc
  simp only at hc
  rw [List.mem_map] at hc
  obtain ⟨a, _, rfl⟩ := hc
  by_cases h : (a.connId == connId) = true
  · rw [if_pos h]
  · rw [if_neg h] at hid ⊢
    exact absurd (beq_iff_eq.mpr hid) h

theorem connBuffer_map (l : List Conn) (connId : Nat) (f : Conn → Conn)
    (hid : ∀ c, (f c).connId = c.connId) (hbuf : ∀ c, (f c).bufferLen = c.bufferLen) :
    connBuffer (l.map f) connId = connBuffer l connId := by
  induction l with
  | nil => rfl
  | cons c l ih =>
    unfold connBuffer at ih ⊢
    simp only [List.map_cons, List.find?_cons]
    rw [hid c]
    by_cases h : (c.connId == connId) = true
    · simp [h, hbuf]
    · simp only [h, cond_false]
      exact ih

/-- C2 (corrected: the REST path does not mirror the socket size
check).  On the socket `chat:send` path an oversized ciphertext is
rejected with `PayloadTooLarge` and the state is untouched apart from the
pruned-and-extended rate bucket and the error emit — in particular no
envelope row is inserted.  On `POST /v1/chats/:chatId/messages`, however,
there is no size check: a ciphertext exceeding `maxCiphertextBytes` is
persisted and answered `201 created`. -/
theorem c2_payload_too_large :
    (∀ (cfg : WsConfig) (parseDate : String → Option Nat) (st : GatewayState)
        (connId userId now : Nat) (p : ChatSendPayload),
      (consumeMessageQuota cfg st.rateTracker userId now).2 = true →
      shapeOk p = true →
      withinReplayWindow cfg parseDate p.sentAt now = true →
      cfg.maxCiphertextBytes < p.ciphertext.utf8ByteSize →
      chatSend cfg parseDate st connId userId now p =
        ({ st with
            rateTracker := (consumeMessageQuota cfg st.rateTracker userId now).1,
            log := st.log ++
              [(connId, .socketError "payload_too_large" "Ciphertext too large")] },
         .rejected "payload_too_large")) ∧
    (∀ (cfg : WsConfig) (db : Db) (uid : Nat) (ci : Int) (b : RestBody) (now : Nat),
      schemaOkBody b = true →
      0 < ci →
      isChatMember db uid ci.toNat = true →
      findEnvelopeByKey db uid b.clientMessageId = none →
      cfg.maxCiphertextBytes < b.ciphertext.utf8ByteSize →
      (restPostMessage db uid (some ci) b now).2 = .created db.nextEnvelopeId ∧
        (restPostMessage db uid (some ci) b now).1.envelopes =
          db.envelopes ++
            [⟨db.nextEnvelopeId, ci.toNat, uid, b.clientMessageId, b.ciphertext, b.nonce,
              b.sentAt, b.metadata, now⟩]) := by
  constructor
  · intro cfg parseDate st connId userId now p hq hs hw hbig
    unfold chatSend
    simp only [hq, hs, hw, Bool.not_true, Bool.false_eq_true, if_false, if_true,
      Bool.not_false, Bool.true_eq_false, ite_false, ite_true]
    rw [if_pos hbig]
    rfl
  · intro cfg db uid ci b now hschema hpos hm hnew hbig
    have hle : ¬ ci ≤ 0 := not_le.mpr hpos
    unfold restPostMessage
    simp only [hschema, hle, hm, hnew, Bool.not_true, Bool.false_eq_true, if_false,
      ite_false, ite_true]
    exact ⟨trivial, trivial⟩

/-- Witness for C2 at a 21-byte ciphertext against a 20-byte maximum. -/
theorem c2_witness :
    ((consumeMessageQuota ⟨10000, 30000, 200, 20, 5, 10000, 300000⟩ [] 1 1000).2 = true) ∧
    (shapeOk ⟨some 7, "m1m1", "n1n1n1n1", "ccccccccccccccccccccc", "T1", []⟩ = true) ∧
    (withinReplayWindow ⟨10000, 30000, 200, 20, 5, 10000, 300000⟩
      (fun s => if s == "T1" then some 1000 else none) "T1" 1000 = true) ∧
    ((20 : Nat) < ("ccccccccccccccccccccc" : String).utf8ByteSize) ∧
    chatSend ⟨10000, 30000, 200, 20, 5, 10000, 300000⟩
        (fun s => if s == "T1" then some 1000 else none)
        ⟨⟨[(7, 1)], [], [], 1⟩, [], [], [(1, 1)], [], [⟨10, 1, 0, ["chat:7"], true⟩], []⟩
        10 1 1000 ⟨some 7, "m1m1", "n1n1n1n1", "ccccccccccccccccccccc", "T1", []⟩ =
      (⟨⟨[(7, 1)], [], [], 1⟩, [(1, [1000])], [], [(1, 1)], [],
        [⟨10, 1, 0, ["chat:7"], true⟩],
        [(10, .socketError "payload_too_large" "Ciphertext too large")]⟩,
       .rejected "payload_too_large") :=
  ⟨by decide, by decide, by decide, by decide,
   by
    have h := c2_payload_too_large.1 ⟨10000, 30000, 200, 20, 5, 10000, 300000⟩
      (fun s => if s == "T1" then some 1000 else none)
      ⟨⟨[(7, 1)], [], [], 1⟩, [], [], [(1, 1)], [], [⟨10, 1, 0, ["chat:7"], true⟩], []⟩
      10 1 1000 ⟨some 7, "m1m1", "n1n1n1n1", "ccccccccccccccccccccc", "T1", []⟩
      (by decide) (by decide) (by decide) (by decide)
    rw [h]
    decide⟩

/-- Counterexample to C2 as stated: the same 21-byte ciphertext that the
socket path rejects with `PayloadTooLarge` (and does not persist) is
accepted and persisted by the REST handler, which has no size check. -/
theorem c2_counterexample :
    let cfg : WsConfig := ⟨10000, 30000, 200, 20, 5, 10000, 300000⟩
    let body : RestBody := ⟨"m1m1", "n1n1n1n1", "ccccccccccccccccccccc", "2024-01-01", []⟩
    let db : Db := ⟨[(7, 1), (7, 2)], [], [], 1⟩
    let run := restPostMessage db 1 (some 7) body 100
    cfg.maxCiphertextBytes < body.ciphertext.utf8ByteSize ∧
      run.2 = .created 1 ∧
      run.1.envelopes =
        [⟨1, 7, 1, "m1m1", "ccccccccccccccccccccc", "n1n1n1n1", "2024-01-01", [], 100⟩] ∧
      run.1.receipts = [⟨1, 2, none, none⟩] := by
  decide

/-- C3 (corrected: only the direct acknowledgments are guarded).  The
backpressure check runs before the heartbeat ack, the join ack and the
send ack: in each of those three handlers, when the handling connection's
write-buffer depth exceeds `maxQueueSize`, a backpressure `socket:error`
is emitted to it, the connection is force-closed, and the acknowledgment
is not written (the log gains exactly the error).  Room broadcasts,
receipt and presence events and `socket:error` emissions themselves are
written with no such check — see the counterexample. -/
theorem c3_backpressure_guards_acks :
    (∀ (cfg : WsConfig) (st : GatewayState) (connId userId now : Nat),
      cfg.maxQueueSize < connBuffer st.conns connId →
      (heartbeat cfg st connId userId now).log =
          st.log ++ [(connId, .socketError "backpressure" "Socket queue overloaded")] ∧
        ∀ c ∈ (heartbeat cfg st connId userId now).conns,
          c.connId = connId → c.connected = false) ∧
    (∀ (cfg : WsConfig) (st : GatewayState) (connId userId chatId : Nat),
      ¬ chatId = 0 →
      isChatMember st.db userId chatId = true →
      cfg.maxQueueSize < connBuffer st.conns connId →
      (chatJoin cfg st connId userId (some chatId)).log =
          st.log ++ [(connId, .socketError "backpressure" "Socket queue overloaded")] ∧
        ∀ c ∈ (chatJoin cfg st connId userId (some chatId)).conns,
          c.connId = connId → c.connected = false) ∧
    (∀ (cfg : WsConfig) (parseDate : String → Option Nat) (st : GatewayState)
        (connId userId now chatId : Nat) (p : ChatSendPayload),
      (consumeMessageQuota cfg st.rateTracker userId now).2 = true →
      shapeOk p = true →
      withinReplayWindow cfg parseDate p.sentAt now = true →
      ¬ cfg.maxCiphertextBytes < p.ciphertext.utf8ByteSize →
      p.chatId = some chatId →
      isChatMember st.db userId chatId = true →
      (redisSetNxPx st.replayGuard (userId, p.nonce) now cfg.replayWindowMs).2 = true →
      cfg.maxQueueSize < connBuffer st.conns connId →
      (chatSend cfg parseDate st connId userId now p).2 =
          .sentClosed (persistEnvelope st.db userId p chatId now).2.id
            (persistEnvelope st.db userId p chatId now).2.createdAt
            (persistEnvelope st.db userId p chatId now).2.duplicate ∧
        (chatSend cfg parseDate st connId userId now p).1.log =
          st.log ++ [(connId, .socketError "backpressure" "Socket queue overloaded")] ∧
        ∀ c ∈ (chatSend cfg parseDate st connId userId now p).1.conns,
          c.connId = connId → c.connected = false) := by
  refine ⟨?_, ?_, ?_⟩
  · intro cfg st connId userId now hover
    unfold heartbeat enforceBackpressure
    dsimp only
    rw [if_neg (not_le.mpr hover)]
    exact ⟨rfl, disconnectConn_closes _ connId⟩
  · intro cfg st connId userId chatId hne hm hover
    unfold chatJoin enforceBackpressure
    have hne2 : (chatId == 0) = false := beq_eq_false_iff_ne.mpr hne
    simp only [hne2, Bool.false_eq_true, if_false, hm, Bool.not_true, ite_false, ite_true]
    have hb : connBuffer (joinRoom st connId (roomName chatId)).conns connId =
        connBuffer st.conns connId := by
      unfold joinRoom
      refine connBuffer_map _ _ _ ?_ ?_ <;> intro c <;> dsimp only <;> split <;> rfl
    rw [hb, if_neg (not_le.mpr hover)]
    exact ⟨rfl, disconnectConn_closes _ connId⟩
  · intro cfg parseDate st connId userId now chatId p hq hs hw hz hc hm hg hover
    unfold chatSend enforceBackpressure
    simp only [hq, hs, hw, hc, hm, hg, Bool.not_true, Bool.false_eq_true, if_false,
      ite_false, ite_true, Option.getD_some]
    rw [if_neg hz, if_neg (not_le.mpr hover)]
    exact ⟨rfl, rfl, disconnectConn_closes _ connId⟩

/-- Witness for C3: a connection with buffer depth 5 against a maximum of
1 is closed with a backpressure error instead of receiving its heartbeat
ack. -/
theorem c3_witness :
    ((⟨10000, 30000, 1, 12000, 5, 10000, 300000⟩ : WsConfig).maxQueueSize <
      connBuffer [⟨10, 1, 5, ["chat:7"], true⟩] 10) ∧
    ((heartbeat ⟨10000, 30000, 1, 12000, 5, 10000, 300000⟩
        ⟨⟨[(7, 1)], [], [], 1⟩, [], [], [(1, 1)], [(10, 0)],
         [⟨10, 1, 5, ["chat:7"], true⟩], []⟩ 10 1 900).log =
        [] ++ [(10, .socketError "backpressure" "Socket queue overloaded")] ∧
      ∀ c ∈ (heartbeat ⟨10000, 30000, 1, 12000, 5, 10000, 300000⟩
          ⟨⟨[(7, 1)], [], [], 1⟩, [], [], [(1, 1)], [(10, 0)],
           [⟨10, 1, 5, ["chat:7"], true⟩], []⟩ 10 1 900).conns,
        c.connId = 10 → c.connected = false) :=
  ⟨by decide,
   c3_backpressure_guards_acks.1 ⟨10000, 30000, 1, 12000, 5, 10000, 300000⟩
     ⟨⟨[(7, 1)], [], [], 1⟩, [], [], [(1, 1)], [(10, 0)],
      [⟨10, 1, 5, ["chat:7"], true⟩], []⟩ 10 1 900 (by decide)⟩

/-- Counterexample to C3 as stated: connection 11 sits in the room with a
write-buffer depth of 5, far above the maximum of 1, yet the `chat:message`
broadcast and the delivered-receipt broadcast are both written to it, it
receives no backpressure error, and it stays connected — so not every
outbound send is preceded by a buffer check. -/
theorem c3_counterexample :
    let cfg : WsConfig := ⟨10000, 30000, 1, 12000, 5, 10000, 300000⟩
    let pd : String → Option Nat := fun s => if s == "T1" then some 1000 else none
    let st0 : GatewayState :=
      ⟨⟨[(7, 1), (7, 2)], [], [], 1⟩, [], [], [(1, 1), (2, 1)], [],
       [⟨10, 1, 0, ["chat:7"], true⟩, ⟨11, 2, 5, ["chat:7"], true⟩], []⟩
    let run := chatSend cfg pd st0 10 1 1000 ⟨some 7, "m1", "n1", "ctext", "T1", []⟩
    cfg.maxQueueSize < connBuffer st0.conns 11 ∧
      run.2 = .sent 1 1000 false ∧
      run.1.log.filter (fun e => e.1 == 11) =
        [(11, .chatMessage ⟨1, 7, 1, "m1", "n1", "ctext", [], "T1", 1000, false⟩),
         (11, .receiptDelivered 7 1 [2] 1000)] ∧
      run.1.conns.all (·.connected) = true := by
  decide

/-- C4 (corrected: the status class is uniform but the rotate failure
messages are not).  Every Login failure — unknown username or wrong
password — returns status 401 with the single message
`Invalid username or password`; every Rotate failure arising from the
credential checks (malformed compound token, wrong token kind, revoked or
missing chain row, secret-hash mismatch, vanished user) returns status
401.  The rotate failure messages differ per check, however, so the
response body does reveal which token check failed — see the
counterexample. -/
theorem c4_unauthorized_class :
    (∀ (check : String → String → Bool) (hash : String → String) (cfg : AuthConfig)
        (db : AuthDb) (username password sid sec : String) (now : Nat) (e : HttpError),
      loginWithPassword check hash cfg db username password sid sec now = .error e →
      e.status = 401 ∧ e.message = "Invalid username or password") ∧
    (∀ (check : String → String → Bool) (hash : String → String) (cfg : AuthConfig)
        (db : AuthDb) (tok : CompoundToken) (sid sec : String) (now : Nat) (e : HttpError),
      (∀ jwt s2, tok = .wellFormed jwt s2 → jwt.key = cfg.refreshSecret) →
      rotateRefreshToken check hash cfg db tok sid sec now = .error e →
      e.status = 401) := by
  constructor
  · intro check hash cfg db username password sid sec now e h
    unfold loginWithPassword at h
    split at h
    · injection h with h2
      subst h2
      exact ⟨rfl, rfl⟩
    · split at h
      · exact Except.noConfusion h
      · injection h with h2
        subst h2
        exact ⟨rfl, rfl⟩
  · intro check hash cfg db tok sid sec now e hkey h
    cases tok with
    | malformed =>
      unfold rotateRefreshToken at h
      injection h with h2
      subst h2
      rfl
    | wellFormed jwt s2 =>
      have hk : (jwt.key == cfg.refreshSecret) = true :=
        beq_iff_eq.mpr (hkey jwt s2 rfl)
      unfold rotateRefreshToken verifyRefreshJwt at h
      simp only at h
      rw [if_pos hk] at h
      simp only at h
      split at h
      · injection h with h2
        subst h2
        rfl
      · split at h
        · injection h with h2
          subst h2
          rfl
        · split at h
          · injection h with h2
            subst h2
            rfl
          · split at h
            · injection h with h2
              subst h2
              rfl
            · split at h
              · injection h with h2
                subst h2
                rfl
              · exact Except.noConfusion h

/-- Witness for C4: a failing login (unknown username) and a failing
rotate (malformed token) both produce the 401 class. -/
theorem c4_witness :
    (loginWithPassword (fun x h => h == "H" ++ x) (fun x => "H" ++ x) ⟨"acc", "ref"⟩
        ⟨[], [], 0⟩ "bob" "pw1234" "s0" "k0" 0 =
      .error ⟨401, "Invalid username or password"⟩) ∧
    ((⟨401, "Invalid username or password"⟩ : HttpError).status = 401 ∧
      (⟨401, "Invalid username or password"⟩ : HttpError).message =
        "Invalid username or password") ∧
    (rotateRefreshToken (fun x h => h == "H" ++ x) (fun x => "H" ++ x) ⟨"acc", "ref"⟩
        ⟨[], [], 0⟩ .malformed "s9" "k9" 5 = .error ⟨401, "Malformed refresh token"⟩) ∧
    ((⟨401, "Malformed refresh token"⟩ : HttpError).status = 401) :=
  ⟨by decide,
   c4_unauthorized_class.1 (fun x h => h == "H" ++ x) (fun x => "H" ++ x) ⟨"acc", "ref"⟩
     ⟨[], [], 0⟩ "bob" "pw1234" "s0" "k0" 0 ⟨401, "Invalid username or password"⟩ (by decide),
   by decide,
   c4_unauthorized_class.2 (fun x h => h == "H" ++ x) (fun x => "H" ++ x) ⟨"acc", "ref"⟩
     ⟨[], [], 0⟩ .malformed "s9" "k9" 5 ⟨401, "Malformed refresh token"⟩
     (fun _ _ h => nomatch h) (by decide)⟩

/-- Counterexample to C4 as stated: two rotate failures — a malformed
compound token and a replayed (revoked) token — both return the 401 class
but with different messages, and the global error handler sends the
message in the response body, so the caller can tell which check failed. -/
theorem c4_counterexample :
    let cfg : AuthConfig := ⟨"acc", "ref"⟩
    let db : AuthDb := ⟨[⟨1, "alice", "ph"⟩], [⟨0, "s0", 1, "h0", true, none, 0⟩], 1⟩
    let r1 := rotateRefreshToken (fun x h => h == "H" ++ x) (fun x => "H" ++ x) cfg db
      .malformed "s9" "k9" 5
    let r2 := rotateRefreshToken (fun x h => h == "H" ++ x) (fun x => "H" ++ x) cfg db
      (.wellFormed ⟨"ref", ⟨1, "alice", "s0", .refresh⟩⟩ "k0") "s9" "k9" 5
    r1 = .error ⟨401, "Malformed refresh token"⟩ ∧
      r2 = .error ⟨401, "Refresh token revoked"⟩ ∧
      ¬ ("Malformed refresh token" = "Refresh token revoked") := by
  decide

theorem guardLookup_setNxPx (g : List ((Nat × String) × Nat)) (k : Nat × String)
    (now ttl : Nat) (hfresh : (redisSetNxPx g k now ttl).2 = true) :
    guardLookup (redisSetNxPx g k now ttl).1 k = some (now + ttl) := by
  cases hl : guardLookup g k with
  | none =>
    unfold redisSetNxPx
    rw [hl]
    simp only
    have hfind : g.find? (fun e => e.1 == k) = none := by
      unfold guardLookup at hl
      cases hf : g.find? (fun e => e.1 == k) with
      | none => rfl
      | some x => rw [hf] at hl; exact Option.noConfusion hl
    unfold guardLookup
    rw [List.find?_append, hfind]
    simp [List.find?_cons]
  | some exp =>
    unfold redisSetNxPx at hfresh ⊢
    rw [hl] at hfresh ⊢
    simp only at hfresh ⊢
    split at hfresh
    · exact Bool.noConfusion hfresh
    · rename_i hge
      rw [if_neg hge]
      unfold guardLookup
      have hleft : (g.filter (fun e => !(e.1 == k))).find? (fun e => e.1 == k) = none := by
        rw [List.find?_eq_none]
        intro x hx
        have hx2 := (List.mem_filter.mp hx).2
        simp only [Bool.not_eq_true'] at hx2
        simp [hx2]
      rw [List.find?_append, hleft]
      simp [List.find?_cons]

theorem chatSend_duplicate_path (cfg : WsConfig) (parseDate : String → Option Nat)
    (st : GatewayState) (connId userId now chatId : Nat) (p : ChatSendPayload) (e : Envelope)
    (hq : (consumeMessageQuota cfg st.rateTracker userId now).2 = true)
    (hs : shapeOk p = true)
    (hw : withinReplayWindow cfg parseDate p.sentAt now = true)
    (hz : ¬ cfg.maxCiphertextBytes < p.ciphertext.utf8ByteSize)
    (hc : p.chatId = some chatId)
    (hm : isChatMember st.db userId chatId = true)
    (hg : (redisSetNxPx st.replayGuard (userId, p.nonce) now cfg.replayWindowMs).2 = true)
    (he : findEnvelopeByKey st.db userId p.clientMessageId = some e)
    (hb : connBuffer st.conns connId ≤ cfg.maxQueueSize) :
    ((chatSend cfg parseDate st connId userId now p).2 = .sent e.id e.createdAt true) ∧
      ((chatSend cfg parseDate st connId userId now p).1.db.envelopes = st.db.envelopes) ∧
      ((chatSend cfg parseDate st connId userId now p).1.db.receipts.map
          (fun r => (r.messageId, r.recipientUserId)) =
        st.db.receipts.map (fun r => (r.messageId, r.recipientUserId))) ∧
      ((connId, .chatAck chatId p.clientMessageId e.id true) ∈
        (chatSend cfg parseDate st connId userId now p).1.log) ∧
      (∀ c ∈ st.conns, c.connected = true → c.rooms.contains (roomName chatId) = true →
        (c.connId, .chatMessage ⟨e.id, chatId, userId, p.clientMessageId, p.nonce,
          p.ciphertext, p.metadata, p.sentAt, e.createdAt, true⟩) ∈
          (chatSend cfg parseDate st connId userId now p).1.log) := by
  have hpe : persistEnvelope st.db userId p chatId now = (st.db, ⟨e.id, e.createdAt, true⟩) := by
    unfold persistEnvelope
    rw [he]
  unfold chatSend
  simp only [hq, hs, hw, hc, hm, hg, Bool.not_true, Bool.false_eq_true, if_false,
    ite_false, ite_true, Option.getD_some]
  rw [if_neg hz, hpe]
  unfold enforceBackpressure
  rw [if_pos hb]
  simp only [Bool.not_true, Bool.false_eq_true, if_false, ite_false, ite_true]
  refine ⟨trivial, ?_, ?_, ?_, ?_⟩
  · split <;> exact updateDeliveredReceipts_envelopes _ _ _ _
  · split <;> exact updateDeliveredReceipts_keys _ _ _ _
  · split <;> simp [emitTo, broadcastRoom, List.mem_append]
  · intro c hc2 hcn hrm
    have hmem : (c.connId,
        OutEvent.chatMessage ⟨e.id, chatId, userId, p.clientMessageId, p.nonce, p.ciphertext,
          p.metadata, p.sentAt, e.createdAt, true⟩) ∈
        (st.conns.filter (fun c => c.connected && c.rooms.contains (roomName chatId))).map
          (fun c => (c.connId,
            OutEvent.chatMessage ⟨e.id, chatId, userId, p.clientMessageId, p.nonce,
              p.ciphertext, p.metadata, p.sentAt, e.createdAt, true⟩)) :=
      List.mem_map.mpr ⟨c, List.mem_filter.mpr ⟨hc2, by rw [hcn, hrm]; rfl⟩, rfl⟩
    split <;> simp only [emitTo, broadcastRoom, List.mem_append] <;> tauto

/-- C1 (corrected: convergence requires the retry to pass the replay
checks first).  A `chat:send` whose `(sender, clientMessageId)` pair
already identifies a stored envelope and which passes the quota, shape,
replay-window, size, membership and nonce-guard checks is answered with
the originally assigned message id and `duplicate := true`, the
acknowledgment and the room fan-out still occur, and the receipt set is
not recreated (the receipt rows' keys are exactly those already present).
An identical retry inside the replay window never reaches this point: its
nonce guard is still live and it is rejected `ReplayNonce` — see the
counterexample. -/
theorem c1_duplicate_send_converges (cfg : WsConfig) (parseDate : String → Option Nat)
    (st : GatewayState) (connId userId now chatId : Nat) (p : ChatSendPayload) (e : Envelope)
    (hq : (consumeMessageQuota cfg st.rateTracker userId now).2 = true)
    (hs : shapeOk p = true)
    (hw : withinReplayWindow cfg parseDate p.sentAt now = true)
    (hz : ¬ cfg.maxCiphertextBytes < p.ciphertext.utf8ByteSize)
    (hc : p.chatId = some chatId)
    (hm : isChatMember st.db userId chatId = true)
    (hg : (redisSetNxPx st.replayGuard (userId, p.nonce) now cfg.replayWindowMs).2 = true)
    (he : findEnvelopeByKey st.db userId p.clientMessageId = some e)
    (hb : connBuffer st.conns connId ≤ cfg.maxQueueSize) :
    ((chatSend cfg parseDate st connId userId now p).2 = .sent e.id e.createdAt true) ∧
      ((connId, .chatAck chatId p.clientMessageId e.id true) ∈
        (chatSend cfg parseDate st connId userId now p).1.log) ∧
      (∀ c ∈ st.conns, c.connected = true → c.rooms.contains (roomName chatId) = true →
        (c.connId, .chatMessage ⟨e.id, chatId, userId, p.clientMessageId, p.nonce,
          p.ciphertext, p.metadata, p.sentAt, e.createdAt, true⟩) ∈
          (chatSend cfg parseDate st connId userId now p).1.log) ∧
      ((chatSend cfg parseDate st connId userId now p).1.db.receipts.map
          (fun r => (r.messageId, r.recipientUserId)) =
        st.db.receipts.map (fun r => (r.messageId, r.recipientUserId))) := by
  obtain ⟨h1, _, h3, h4, h5⟩ :=
    chatSend_duplicate_path cfg parseDate st connId userId now chatId p e
      hq hs hw hz hc hm hg he hb
  exact ⟨h1, h4, h5, h3⟩

/-- Witness for C1: a retry of the stored envelope (same payload, nonce
guard already expired and gone) converges to the stored id with
`duplicate := true`, and the receipt keys are unchanged. -/
theorem c1_witness :
    (findEnvelopeByKey ⟨[(7, 1), (7, 2)], [⟨1, 7, 1, "m1", "ct", "n1", "T1", [], 900⟩],
        [⟨1, 2, none, none⟩], 2⟩ 1 "m1" = some ⟨1, 7, 1, "m1", "ct", "n1", "T1", [], 900⟩) ∧
    ((chatSend ⟨10000, 30000, 200, 12000, 20, 10000, 300000⟩
        (fun s => if s == "T1" then some 900 else none)
        ⟨⟨[(7, 1), (7, 2)], [⟨1, 7, 1, "m1", "ct", "n1", "T1", [], 900⟩],
          [⟨1, 2, none, none⟩], 2⟩, [], [], [(1, 1), (2, 1)], [],
         [⟨10, 1, 0, ["chat:7"], true⟩, ⟨11, 2, 0, ["chat:7"], true⟩], []⟩
        10 1 1000 ⟨some 7, "m1", "n1", "ct", "T1", []⟩).2 = .sent 1 900 true) ∧
    ((10, OutEvent.chatAck 7 "m1" 1 true) ∈
      (chatSend ⟨10000, 30000, 200, 12000, 20, 10000, 300000⟩
        (fun s => if s == "T1" then some 900 else none)
        ⟨⟨[(7, 1), (7, 2)], [⟨1, 7, 1, "m1", "ct", "n1", "T1", [], 900⟩],
          [⟨1, 2, none, none⟩], 2⟩, [], [], [(1, 1), (2, 1)], [],
         [⟨10, 1, 0, ["chat:7"], true⟩, ⟨11, 2, 0, ["chat:7"], true⟩], []⟩
        10 1 1000 ⟨some 7, "m1", "n1", "ct", "T1", []⟩).1.log) ∧
    ((chatSend ⟨10000, 30000, 200, 12000, 20, 10000, 300000⟩
        (fun s => if s == "T1" then some 900 else none)
        ⟨⟨[(7, 1), (7, 2)], [⟨1, 7, 1, "m1", "ct", "n1", "T1", [], 900⟩],
          [⟨1, 2, none, none⟩], 2⟩, [], [], [(1, 1), (2, 1)], [],
         [⟨10, 1, 0, ["chat:7"], true⟩, ⟨11, 2, 0, ["chat:7"], true⟩], []⟩
        10 1 1000 ⟨some 7, "m1", "n1", "ct", "T1", []⟩).1.db.receipts.map
          (fun r => (r.messageId, r.recipientUserId)) =
      ([⟨1, 2, none, none⟩] : List Receipt).map (fun r => (r.messageId, r.recipientUserId))) :=
  ⟨by decide,
   by
    obtain ⟨h1, h2, h3, h4⟩ := c1_duplicate_send_converges
      ⟨10000, 30000, 200, 12000, 20, 10000, 300000⟩
      (fun s => if s == "T1" then some 900 else none)
      ⟨⟨[(7, 1), (7, 2)], [⟨1, 7, 1, "m1", "ct", "n1", "T1", [], 900⟩],
        [⟨1, 2, none, none⟩], 2⟩, [], [], [(1, 1), (2, 1)], [],
       [⟨10, 1, 0, ["chat:7"], true⟩, ⟨11, 2, 0, ["chat:7"], true⟩], []⟩
      10 1 1000 7 ⟨some 7, "m1", "n1", "ct", "T1", []⟩ ⟨1, 7, 1, "m1", "ct", "n1", "T1", [], 900⟩
      (by decide) (by decide) (by decide) (by decide) (by decide) (by decide) (by decide)
      (by decide) (by decide)
    exact h1,
   by
    obtain ⟨h1, h2, h3, h4⟩ := c1_duplicate_send_converges
      ⟨10000, 30000, 200, 12000, 20, 10000, 300000⟩
      (fun s => if s == "T1" then some 900 else none)
      ⟨⟨[(7, 1), (7, 2)], [⟨1, 7, 1, "m1", "ct", "n1", "T1", [], 900⟩],
        [⟨1, 2, none, none⟩], 2⟩, [], [], [(1, 1), (2, 1)], [],
       [⟨10, 1, 0, ["chat:7"], true⟩, ⟨11, 2, 0, ["chat:7"], true⟩], []⟩
      10 1 1000 7 ⟨some 7, "m1", "n1", "ct", "T1", []⟩ ⟨1, 7, 1, "m1", "ct", "n1", "T1", [], 900⟩
      (by decide) (by decide) (by decide) (by decide) (by decide) (by decide) (by decide)
      (by decide) (by decide)
    exact h2,
   by
    obtain ⟨h1, h2, h3, h4⟩ := c1_duplicate_send_converges
      ⟨10000, 30000, 200, 12000, 20, 10000, 300000⟩
      (fun s => if s == "T1" then some 900 else none)
      ⟨⟨[(7, 1), (7, 2)], [⟨1, 7, 1, "m1", "ct", "n1", "T1", [], 900⟩],
        [⟨1, 2, none, none⟩], 2⟩, [], [], [(1, 1), (2, 1)], [],
       [⟨10, 1, 0, ["chat:7"], true⟩, ⟨11, 2, 0, ["chat:7"], true⟩], []⟩
      10 1 1000 7 ⟨some 7, "m1", "n1", "ct", "T1", []⟩ ⟨1, 7, 1, "m1", "ct", "n1", "T1", [], 900⟩
      (by decide) (by decide) (by decide) (by decide) (by decide) (by decide) (by decide)
      (by decide) (by decide)
    exact h4⟩

/-- Counterexample to C1 as stated: the literally identical request
submitted twice in direct succession does not converge — the second
submission reuses the same nonce inside the replay window, so it is
rejected `ReplayNonce` with no acknowledgment and no `duplicate := true`
response. -/
theorem c1_counterexample :
    let cfg : WsConfig := ⟨10000, 30000, 200, 12000, 20, 10000, 300000⟩
    let pd : String → Option Nat := fun s => if s == "T1" then some 1000 else none
    let st0 : GatewayState :=
      ⟨⟨[(7, 1), (7, 2)], [], [], 1⟩, [], [], [(1, 1), (2, 1)], [],
       [⟨10, 1, 0, ["chat:7"], true⟩, ⟨11, 2, 0, ["chat:7"], true⟩], []⟩
    let p : ChatSendPayload := ⟨some 7, "m1", "n1", "ctext", "T1", []⟩
    let r1 := chatSend cfg pd st0 10 1 1000 p
    let r2 := chatSend cfg pd r1.1 10 1 1500 p
    r1.2 = .sent 1 1000 false ∧
      r2.2 = .rejected "replay_nonce" ∧
      r2.1.log.drop r1.1.log.length =
        [(10, .socketError "replay_nonce" "Nonce already used")] := by
  decide

/-- C10 (confirmed).  When a `chat:send` hits the
`(sender, clientMessageId)` conflict — even with a different chatId,
nonce, ciphertext, sentAt or metadata than the stored row — the envelope
table is left entirely unchanged, and the acknowledgment and broadcast
carry the stored row's id and created-at while echoing the retry's own
payload fields. -/
theorem c10_duplicate_frame (cfg : WsConfig) (parseDate : String → Option Nat)
    (st : GatewayState) (connId userId now chatId : Nat) (p : ChatSendPayload) (e : Envelope)
    (hq : (consumeMessageQuota cfg st.rateTracker userId now).2 = true)
    (hs : shapeOk p = true)
    (hw : withinReplayWindow cfg parseDate p.sentAt now = true)
    (hz : ¬ cfg.maxCiphertextBytes < p.ciphertext.utf8ByteSize)
    (hc : p.chatId = some chatId)
    (hm : isChatMember st.db userId chatId = true)
    (hg : (redisSetNxPx st.replayGuard (userId, p.nonce) now cfg.replayWindowMs).2 = true)
    (he : findEnvelopeByKey st.db userId p.clientMessageId = some e)
    (hb : connBuffer st.conns connId ≤ cfg.maxQueueSize) :
    ((chatSend cfg parseDate st connId userId now p).1.db.envelopes = st.db.envelopes) ∧
      ((chatSend cfg parseDate st connId userId now p).2 = .sent e.id e.createdAt true) ∧
      ((connId, .chatAck chatId p.clientMessageId e.id true) ∈
        (chatSend cfg parseDate st connId userId now p).1.log) ∧
      (∀ c ∈ st.conns, c.connected = true → c.rooms.contains (roomName chatId) = true →
        (c.connId, .chatMessage ⟨e.id, chatId, userId, p.clientMessageId, p.nonce,
          p.ciphertext, p.metadata, p.sentAt, e.createdAt, true⟩) ∈
          (chatSend cfg parseDate st connId userId now p).1.log) := by
  obtain ⟨h1, h2, _, h4, h5⟩ :=
    chatSend_duplicate_path cfg parseDate st connId userId now chatId p e
      hq hs hw hz hc hm hg he hb
  exact ⟨h2, h1, h4, h5⟩

/-- Witness for C10: the retry targets chat 8 with a fresh nonce, new
ciphertext, new sentAt and new metadata, yet the stored row (chat 7) is
untouched and the response carries the stored id 1 and created-at 900. -/
theorem c10_witness :
    (findEnvelopeByKey ⟨[(7, 1), (8, 1), (8, 2)], [⟨1, 7, 1, "m1", "ct-A", "n1", "T1", [], 900⟩],
        [], 2⟩ 1 "m1" = some ⟨1, 7, 1, "m1", "ct-A", "n1", "T1", [], 900⟩) ∧
    ((chatSend ⟨10000, 30000, 200, 12000, 20, 10000, 300000⟩
        (fun s => if s == "T2" then some 2000 else none)
        ⟨⟨[(7, 1), (8, 1), (8, 2)], [⟨1, 7, 1, "m1", "ct-A", "n1", "T1", [], 900⟩], [], 2⟩,
         [], [], [(1, 1)], [], [⟨10, 1, 0, ["chat:8"], true⟩], []⟩
        10 1 2000 ⟨some 8, "m1", "n2", "ct-B", "T2", [("k", "v")]⟩).1.db.envelopes =
      [⟨1, 7, 1, "m1", "ct-A", "n1", "T1", [], 900⟩]) ∧
    ((chatSend ⟨10000, 30000, 200, 12000, 20, 10000, 300000⟩
        (fun s => if s == "T2" then some 2000 else none)
        ⟨⟨[(7, 1), (8, 1), (8, 2)], [⟨1, 7, 1, "m1", "ct-A", "n1", "T1", [], 900⟩], [], 2⟩,
         [], [], [(1, 1)], [], [⟨10, 1, 0, ["chat:8"], true⟩], []⟩
        10 1 2000 ⟨some 8, "m1", "n2", "ct-B", "T2", [("k", "v")]⟩).2 = .sent 1 900 true) ∧
    ((10, OutEvent.chatMessage ⟨1, 8, 1, "m1", "n2", "ct-B", [("k", "v")], "T2", 900, true⟩) ∈
      (chatSend ⟨10000, 30000, 200, 12000, 20, 10000, 300000⟩
        (fun s => if s == "T2" then some 2000 else none)
        ⟨⟨[(7, 1), (8, 1), (8, 2)], [⟨1, 7, 1, "m1", "ct-A", "n1", "T1", [], 900⟩], [], 2⟩,
         [], [], [(1, 1)], [], [⟨10, 1, 0, ["chat:8"], true⟩], []⟩
        10 1 2000 ⟨some 8, "m1", "n2", "ct-B", "T2", [("k", "v")]⟩).1.log) :=
  ⟨by decide,
   by
    obtain ⟨h1, h2, h3, h4⟩ := c10_duplicate_frame
      ⟨10000, 30000, 200, 12000, 20, 10000, 300000⟩
      (fun s => if s == "T2" then some 2000 else none)
      ⟨⟨[(7, 1), (8, 1), (8, 2)], [⟨1, 7, 1, "m1", "ct-A", "n1", "T1", [], 900⟩], [], 2⟩,
       [], [], [(1, 1)], [], [⟨10, 1, 0, ["chat:8"], true⟩], []⟩
      10 1 2000 8 ⟨some 8, "m1", "n2", "ct-B", "T2", [("k", "v")]⟩
      ⟨1, 7, 1, "m1", "ct-A", "n1", "T1", [], 900⟩
      (by decide) (by decide) (by decide) (by decide) (by decide) (by decide) (by decide)
      (by decide) (by decide)
    exact h1,
   by
    obtain ⟨h1, h2, h3, h4⟩ := c10_duplicate_frame
      ⟨10000, 30000, 200, 12000, 20, 10000, 300000⟩
      (fun s => if s == "T2" then some 2000 else none)
      ⟨⟨[(7, 1), (8, 1), (8, 2)], [⟨1, 7, 1, "m1", "ct-A", "n1", "T1", [], 900⟩], [], 2⟩,
       [], [], [(1, 1)], [], [⟨10, 1, 0, ["chat:8"], true⟩], []⟩
      10 1 2000 8 ⟨some 8, "m1", "n2", "ct-B", "T2", [("k", "v")]⟩
      ⟨1, 7, 1, "m1", "ct-A", "n1", "T1", [], 900⟩
      (by decide) (by decide) (by decide) (by decide) (by decide) (by decide) (by decide)
      (by decide) (by decide)
    exact h2,
   by
    obtain ⟨h1, h2, h3, h4⟩ := c10_duplicate_frame
      ⟨10000, 30000, 200, 12000, 20, 10000, 300000⟩
      (fun s => if s == "T2" then some 2000 else none)
      ⟨⟨[(7, 1), (8, 1), (8, 2)], [⟨1, 7, 1, "m1", "ct-A", "n1", "T1", [], 900⟩], [], 2⟩,
       [], [], [(1, 1)], [], [⟨10, 1, 0, ["chat:8"], true⟩], []⟩
      10 1 2000 8 ⟨some 8, "m1", "n2", "ct-B", "T2", [("k", "v")]⟩
      ⟨1, 7, 1, "m1", "ct-A", "n1", "T1", [], 900⟩
      (by decide) (by decide) (by decide) (by decide) (by decide) (by decide) (by decide)
      (by decide) (by decide)
    exact h4 ⟨10, 1, 0, ["chat:8"], true⟩ (by decide) (by decide) (by decide)⟩

/-- C8 (confirmed).  With all earlier pipeline checks passing: a
`chat:send` whose `(sender, nonce)` replay-guard key is still live is
rejected with `ReplayNonce`, the state changing only by the pruned rate
bucket and the emitted error — in particular no envelope is persisted and
the guard itself is untouched; a successful send records the guard key
with absolute expiry `now + replayWindowMs` (TTL equal to the replay
window); and a send that reuses a nonce whose guard entry has expired
(`expiry ≤ now`) proceeds to persistence and is answered `sent`. -/
theorem c8_replay_nonce_guard :
    (∀ (cfg : WsConfig) (parseDate : String → Option Nat) (st : GatewayState)
        (connId userId now chatId exp : Nat) (p : ChatSendPayload),
      (consumeMessageQuota cfg st.rateTracker userId now).2 = true →
      shapeOk p = true →
      withinReplayWindow cfg parseDate p.sentAt now = true →
      ¬ cfg.maxCiphertextBytes < p.ciphertext.utf8ByteSize →
      p.chatId = some chatId →
      isChatMember st.db userId chatId = true →
      guardLookup st.replayGuard (userId, p.nonce) = some exp →
      now < exp →
      chatSend cfg parseDate st connId userId now p =
        ({ st with
            rateTracker := (consumeMessageQuota cfg st.rateTracker userId now).1,
            log := st.log ++ [(connId, .socketError "replay_nonce" "Nonce already used")] },
         .rejected "replay_nonce")) ∧
    (∀ (cfg : WsConfig) (parseDate : String → Option Nat) (st : GatewayState)
        (connId userId now chatId : Nat) (p : ChatSendPayload),
      (consumeMessageQuota cfg st.rateTracker userId now).2 = true →
      shapeOk p = true →
      withinReplayWindow cfg parseDate p.sentAt now = true →
      ¬ cfg.maxCiphertextBytes < p.ciphertext.utf8ByteSize →
      p.chatId = some chatId →
      isChatMember st.db userId chatId = true →
      (redisSetNxPx st.replayGuard (userId, p.nonce) now cfg.replayWindowMs).2 = true →
      connBuffer st.conns connId ≤ cfg.maxQueueSize →
      guardLookup (chatSend cfg parseDate st connId userId now p).1.replayGuard
          (userId, p.nonce) = some (now + cfg.replayWindowMs)) ∧
    (∀ (cfg : WsConfig) (parseDate : String → Option Nat) (st : GatewayState)
        (connId userId now chatId exp : Nat) (p : ChatSendPayload),
      (consumeMessageQuota cfg st.rateTracker userId now).2 = true →
      shapeOk p = true →
      withinReplayWindow cfg parseDate p.sentAt now = true →
      ¬ cfg.maxCiphertextBytes < p.ciphertext.utf8ByteSize →
      p.chatId = some chatId →
      isChatMember st.db userId chatId = true →
      connBuffer st.conns connId ≤ cfg.maxQueueSize →
      guardLookup st.replayGuard (userId, p.nonce) = some exp →
      exp ≤ now →
      ∃ mid cat dup,
        (chatSend cfg parseDate st connId userId now p).2 = .sent mid cat dup) := by
  refine ⟨?_, ?_, ?_⟩
  · intro cfg parseDate st connId userId now chatId exp p hq hs hw hz hc hm hlive hnow
    unfold chatSend
    simp only [hq, hs, hw, hc, hm, Bool.not_true, Bool.false_eq_true, if_false,
      ite_false, ite_true, Option.getD_some]
    rw [if_neg hz]
    rw [show redisSetNxPx st.replayGuard (userId, p.nonce) now cfg.replayWindowMs =
        (st.replayGuard, false) from by
      unfold redisSetNxPx
      rw [hlive]
      simp only
      rw [if_pos hnow]]
    rfl
  · intro cfg parseDate st connId userId now chatId p hq hs hw hz hc hm hfresh hb
    unfold chatSend
    simp only [hq, hs, hw, hc, hm, hfresh, Bool.not_true, Bool.false_eq_true, if_false,
      ite_false, ite_true, Option.getD_some]
    rw [if_neg hz]
    unfold enforceBackpressure
    rw [if_pos hb]
    simp only [Bool.not_true, Bool.false_eq_true, if_false, ite_false, ite_true]
    split <;> exact guardLookup_setNxPx st.replayGuard (userId, p.nonce) now
      cfg.replayWindowMs hfresh
  · intro cfg parseDate st connId userId now chatId exp p hq hs hw hz hc hm hb hlive hexp
    have hfresh : (redisSetNxPx st.replayGuard (userId, p.nonce) now cfg.replayWindowMs).2 =
        true := by
      unfold redisSetNxPx
      rw [hlive]
      simp only
      rw [if_neg (not_lt.mpr hexp)]
    unfold chatSend
    simp only [hq, hs, hw, hc, hm, hfresh, Bool.not_true, Bool.false_eq_true, if_false,
      ite_false, ite_true, Option.getD_some]
    rw [if_neg hz]
    unfold enforceBackpressure
    rw [if_pos hb]
    simp only [Bool.not_true, Bool.false_eq_true, if_false, ite_false, ite_true]
    exact ⟨_, _, _, rfl⟩

/-- Witness for C8: nonce `n1` is rejected while its guard entry is live
(`400 < 1000`), a fresh send records expiry `now + window`, and the same
nonce succeeds once the entry has expired (`1000 ≤ 2000`). -/
theorem c8_witness :
    ((consumeMessageQuota ⟨10000, 30000, 200, 12000, 20, 10000, 900⟩ [] 1 400).2 = true) ∧
    (guardLookup [((1, "n1"), 1000)] (1, "n1") = some 1000) ∧ (400 < 1000) ∧
    chatSend ⟨10000, 30000, 200, 12000, 20, 10000, 900⟩
        (fun s => if s == "T1" then some 400 else if s == "T2" then some 2000 else none)
        ⟨⟨[(7, 1)], [], [], 1⟩, [], [((1, "n1"), 1000)], [(1, 1)], [],
         [⟨10, 1, 0, ["chat:7"], true⟩], []⟩ 10 1 400 ⟨some 7, "m1", "n1", "c", "T1", []⟩ =
      (⟨⟨[(7, 1)], [], [], 1⟩, [(1, [400])], [((1, "n1"), 1000)], [(1, 1)], [],
        [⟨10, 1, 0, ["chat:7"], true⟩],
        [(10, .socketError "replay_nonce" "Nonce already used")]⟩,
       .rejected "replay_nonce") ∧
    ((1000 : Nat) ≤ 2000) ∧
    (∃ mid cat dup,
      (chatSend ⟨10000, 30000, 200, 12000, 20, 10000, 900⟩
        (fun s => if s == "T1" then some 400 else if s == "T2" then some 2000 else none)
        ⟨⟨[(7, 1)], [], [], 1⟩, [], [((1, "n1"), 1000)], [(1, 1)], [],
         [⟨10, 1, 0, ["chat:7"], true⟩], []⟩ 10 1 2000
        ⟨some 7, "m2", "n1", "c", "T2", []⟩).2 = .sent mid cat dup) :=
  ⟨by decide, by decide, by decide,
   by
    have h := c8_replay_nonce_guard.1 ⟨10000, 30000, 200, 12000, 20, 10000, 900⟩
      (fun s => if s == "T1" then some 400 else if s == "T2" then some 2000 else none)
      ⟨⟨[(7, 1)], [], [], 1⟩, [], [((1, "n1"), 1000)], [(1, 1)], [],
       [⟨10, 1, 0, ["chat:7"], true⟩], []⟩ 10 1 400 7 1000 ⟨some 7, "m1", "n1", "c", "T1", []⟩
      (by decide) (by decide) (by decide) (by decide) (by decide) (by decide) (by decide)
      (by decide)
    rw [h]
    decide,
   by decide,
   c8_replay_nonce_guard.2.2 ⟨10000, 30000, 200, 12000, 20, 10000, 900⟩
     (fun s => if s == "T1" then some 400 else if s == "T2" then some 2000 else none)
     ⟨⟨[(7, 1)], [], [], 1⟩, [], [((1, "n1"), 1000)], [(1, 1)], [],
      [⟨10, 1, 0, ["chat:7"], true⟩], []⟩ 10 1 2000 7 1000 ⟨some 7, "m2", "n1", "c", "T2", []⟩
     (by decide) (by decide) (by decide) (by decide) (by decide) (by decide) (by decide)
     (by decide) (by decide)⟩

/-- C9 (confirmed).  Under the `message_envelopes` primary-key
invariant (distinct ids), the GET page handler returns the page query's
rows; those rows are strictly decreasing in id; and the page is contiguous
with respect to insertion order: any envelope of the chat below the upper
bound that was omitted is smaller than every returned id — nothing between
the last returned id and the bound is skipped. -/
theorem c9_page_strictly_decreasing_gapless (db : Db) (uid : Nat) (ci : Int)
    (ln bn : Option Int) (hci : 0 < ci) (hm : isChatMember db uid ci.toNat = true)
    (hnodup : (db.envelopes.map (·.id)).Nodup) :
    restGetMessages db uid (some ci) ln bn =
        .page (pageQuery db.envelopes ci.toNat (boundBefore bn) (clampLimit ln)) ∧
      (pageQuery db.envelopes ci.toNat (boundBefore bn) (clampLimit ln)).Pairwise
        (fun a b => b.id < a.id) ∧
      (∀ e ∈ db.envelopes, pageFilter ci.toNat (boundBefore bn) e = true →
        e ∉ pageQuery db.envelopes ci.toNat (boundBefore bn) (clampLimit ln) →
        ∀ q ∈ pageQuery db.envelopes ci.toNat (boundBefore bn) (clampLimit ln),
          e.id < q.id) := by
  have hfsub : List.Sublist (db.envelopes.filter (pageFilter ci.toNat (boundBefore bn)))
      db.envelopes :=
    List.filter_sublist _
  have hnl : ((db.envelopes.filter (pageFilter ci.toNat (boundBefore bn))).map (·.id)).Nodup :=
    List.Nodup.sublist (List.Sublist.map _ hfsub) hnodup
  have hperm :
      List.Perm
        ((db.envelopes.filter (pageFilter ci.toNat (boundBefore bn))).insertionSort envIdGe)
        (db.envelopes.filter (pageFilter ci.toNat (boundBefore bn))) :=
    List.perm_insertionSort _ _
  have hns :
      (((db.envelopes.filter (pageFilter ci.toNat (boundBefore bn))).insertionSort
        envIdGe).map (·.id)).Nodup :=
    ((hperm.map _).nodup_iff).mpr hnl
  have hsort :
      ((db.envelopes.filter (pageFilter ci.toNat (boundBefore bn))).insertionSort
        envIdGe).Sorted envIdGe :=
    List.sorted_insertionSort _ _
  have hne :
      ((db.envelopes.filter (pageFilter ci.toNat (boundBefore bn))).insertionSort
        envIdGe).Pairwise (fun a b => a.id ≠ b.id) :=
    (List.pairwise_map).mp hns
  have hstrict :
      ((db.envelopes.filter (pageFilter ci.toNat (boundBefore bn))).insertionSort
        envIdGe).Pairwise (fun a b => b.id < a.id) :=
    (hsort.and hne).imp (fun hab => lt_of_le_of_ne hab.1 (Ne.symm hab.2))
  refine ⟨?_, ?_, ?_⟩
  · unfold restGetMessages
    simp only [hm, not_le.mpr hci, if_false, Bool.not_true, Bool.false_eq_true, ite_false,
      ite_true]
  · exact List.Pairwise.sublist (List.take_sublist _ _) hstrict
  · intro e he hef hnotin q hq
    have hel : e ∈ db.envelopes.filter (pageFilter ci.toNat (boundBefore bn)) :=
      List.mem_filter.mpr ⟨he, hef⟩
    have hes :
        e ∈ (db.envelopes.filter (pageFilter ci.toNat (boundBefore bn))).insertionSort
          envIdGe := (hperm.mem_iff).mpr hel
    have heq :
        ((db.envelopes.filter (pageFilter ci.toNat (boundBefore bn))).insertionSort
            envIdGe).take (clampLimit ln) ++
          ((db.envelopes.filter (pageFilter ci.toNat (boundBefore bn))).insertionSort
            envIdGe).drop (clampLimit ln) =
          (db.envelopes.filter (pageFilter ci.toNat (boundBefore bn))).insertionSort
            envIdGe := List.take_append_drop _ _
    have hall := heq.symm ▸ hstrict
    have hes2 := heq.symm ▸ hes
    rcases List.mem_append.mp hes2 with h | h
    · exact absurd h hnotin
    · exact (List.pairwise_append.mp hall).2.2 q hq e h

/-- Witness for C9 on a four-row table (chats 7 and 8): the page below
id 4 is `[2, 1]`, strictly decreasing, with no matching envelope skipped. -/
theorem c9_witness :
    (0 < (7 : Int)) ∧
    (isChatMember ⟨[(7, 1)],
        [⟨1, 7, 1, "a", "c", "n", "T", [], 1⟩, ⟨2, 7, 1, "b", "c", "n", "T", [], 2⟩,
         ⟨3, 8, 1, "c2", "c", "n", "T", [], 3⟩, ⟨4, 7, 2, "d", "c", "n", "T", [], 4⟩],
        [], 5⟩ 1 (7 : Int).toNat = true) ∧
    ((List.map (·.id)
        ([⟨1, 7, 1, "a", "c", "n", "T", [], 1⟩, ⟨2, 7, 1, "b", "c", "n", "T", [], 2⟩,
          ⟨3, 8, 1, "c2", "c", "n", "T", [], 3⟩,
          ⟨4, 7, 2, "d", "c", "n", "T", [], 4⟩] : List Envelope)).Nodup) ∧
    (restGetMessages ⟨[(7, 1)],
        [⟨1, 7, 1, "a", "c", "n", "T", [], 1⟩, ⟨2, 7, 1, "b", "c", "n", "T", [], 2⟩,
         ⟨3, 8, 1, "c2", "c", "n", "T", [], 3⟩, ⟨4, 7, 2, "d", "c", "n", "T", [], 4⟩],
        [], 5⟩ 1 (some 7) none (some 4) =
      .page (pageQuery
        [⟨1, 7, 1, "a", "c", "n", "T", [], 1⟩, ⟨2, 7, 1, "b", "c", "n", "T", [], 2⟩,
         ⟨3, 8, 1, "c2", "c", "n", "T", [], 3⟩, ⟨4, 7, 2, "d", "c", "n", "T", [], 4⟩]
        (7 : Int).toNat (boundBefore (some 4)) (clampLimit none))) ∧
    ((pageQuery
        [⟨1, 7, 1, "a", "c", "n", "T", [], 1⟩, ⟨2, 7, 1, "b", "c", "n", "T", [], 2⟩,
         ⟨3, 8, 1, "c2", "c", "n", "T", [], 3⟩, ⟨4, 7, 2, "d", "c", "n", "T", [], 4⟩]
        (7 : Int).toNat (boundBefore (some 4)) (clampLimit none)).Pairwise
      (fun a b => b.id < a.id)) :=
  ⟨by decide, by decide, by decide,
   (c9_page_strictly_decreasing_gapless ⟨[(7, 1)],
      [⟨1, 7, 1, "a", "c", "n", "T", [], 1⟩, ⟨2, 7, 1, "b", "c", "n", "T", [], 2⟩,
       ⟨3, 8, 1, "c2", "c", "n", "T", [], 3⟩, ⟨4, 7, 2, "d", "c", "n", "T", [], 4⟩],
      [], 5⟩ 1 7 none (some 4) (by decide) (by decide) (by decide)).1,
   (c9_page_strictly_decreasing_gapless ⟨[(7, 1)],
      [⟨1, 7, 1, "a", "c", "n", "T", [], 1⟩, ⟨2, 7, 1, "b", "c", "n", "T", [], 2⟩,
       ⟨3, 8, 1, "c2", "c", "n", "T", [], 3⟩, ⟨4, 7, 2, "d", "c", "n", "T", [], 4⟩],
      [], 5⟩ 1 7 none (some 4) (by decide) (by decide) (by decide)).2.1⟩

theorem filter_beq_range (k m : Nat) :
    (List.range m).filter (fun i => i == k) = if k < m then [k] else [] := by
  induction m with
  | zero => simp
  | succ m ih =>
    rw [List.range_succ, List.filter_append, ih]
    by_cases h : k < m
    · rw [if_pos h, if_pos (Nat.lt_succ_of_lt h)]
      have hm : ((m == k) : Bool) = false := by
        simp only [beq_eq_false_iff_ne, ne_eq]
        omega
      simp [List.filter, hm]
    · by_cases h2 : k = m
      · subst h2
        rw [if_neg h, if_pos (Nat.lt_succ_self k)]
        simp [List.filter]
      · rw [if_neg h, if_neg (by omega)]
        have hm : ((m == k) : Bool) = false := by
          simp only [beq_eq_false_iff_ne, ne_eq]
          omega
        simp [List.filter, hm]

theorem chain_rows_filter (hash : String → String) (u : UserRow) (s sec : Nat → String)
    (hinj : ∀ i j : Nat, s i = s j → i = j) (n k : Nat) (hk : k ≤ n) :
    ((List.range (n + 1)).map (fun i => chainRow hash u s sec i n)).filter
      (fun r => r.sessionId == s k) = [chainRow hash u s sec k n] := by
  rw [List.filter_map]
  have hcong : (List.range (n + 1)).filter
      ((fun r => r.sessionId == s k) ∘ fun i => chainRow hash u s sec i n) =
      (List.range (n + 1)).filter (fun i => i == k) := by
    apply List.filter_congr
    intro i _
    show ((chainRow hash u s sec i n).sessionId == s k) = (i == k)
    by_cases h : i = k
    · subst h
      simp [chainRow]
    · have hne : ¬ s i = s k := fun he => h (hinj i k he)
      simp [chainRow, hne, h]
  rw [hcong, filter_beq_range, if_pos (Nat.lt_succ_of_le hk)]
  rfl

theorem latest_chain (hash : String → String) (u : UserRow) (s sec : Nat → String)
    (hinj : ∀ i j : Nat, s i = s j → i = j) (n k : Nat) (hk : k ≤ n) :
    latestRowForSession (chainDb hash u s sec n) (s k) =
      some (chainRow hash u s sec k n) := by
  unfold latestRowForSession chainDb
  simp only
  rw [chain_rows_filter hash u s sec hinj n k hk]
  rfl

theorem chain_rows_update (hash : String → String) (u : UserRow) (s sec : Nat → String)
    (n : Nat) :
    (((List.range (n + 1)).map (fun i => chainRow hash u s sec i n)) ++
        [(⟨n + 1, s (n + 1), u.id, hash (sec (n + 1)), false, none, n + 1⟩ :
          RefreshTokenRow)]).map
      (fun r => if r.id == n
        then { r with isRevoked := true, replacedBy := some (n + 1) } else r) =
      (List.range (n + 2)).map (fun i => chainRow hash u s sec i (n + 1)) := by
  have hLHS : (((List.range (n + 1)).map (fun i => chainRow hash u s sec i n)) ++
        [(⟨n + 1, s (n + 1), u.id, hash (sec (n + 1)), false, none, n + 1⟩ :
          RefreshTokenRow)]).map
      (fun r => if r.id == n
        then { r with isRevoked := true, replacedBy := some (n + 1) } else r) =
      ((List.range (n + 1)).map (fun i => chainRow hash u s sec i (n + 1))) ++
        [chainRow hash u s sec (n + 1) (n + 1)] := by
    rw [List.map_append, List.map_map]
    congr 1
    · apply List.map_congr_left
      intro i hi
      have hi2 : i < n + 1 := List.mem_range.mp hi
      show (if (chainRow hash u s sec i n).id == n
          then { chainRow hash u s sec i n with
                 isRevoked := true, replacedBy := some (n + 1) }
          else chainRow hash u s sec i n) = chainRow hash u s sec i (n + 1)
      by_cases h : i = n
      · subst h
        rw [if_pos (by simp [chainRow])]
        simp [chainRow, Nat.lt_succ_self]
      · rw [if_neg (by simp [chainRow, h])]
        have hlt : i < n := by omega
        simp [chainRow, hlt, Nat.lt_succ_of_lt hlt]
    · simp only [List.map_cons, List.map_nil]
      rw [if_neg (by simp)]
      simp [chainRow, Nat.lt_irrefl]
  rw [hLHS]
  conv_rhs => rw [show n + 2 = (n + 1) + 1 from rfl, List.range_succ, List.map_append]
  simp

theorem rotate_chain_step (check : String → String → Bool) (hash : String → String)
    (cfg : AuthConfig) (u : UserRow) (s sec : Nat → String)
    (hchk : ∀ x, check x (hash x) = true)
    (hinj : ∀ i j : Nat, s i = s j → i = j) (n : Nat) :
    rotateRefreshToken check hash cfg (chainDb hash u s sec n) (chainTok cfg u s sec n)
      (s (n + 1)) (sec (n + 1)) (n + 1) =
      .ok (chainDb hash u s sec (n + 1), chainResult cfg u s sec (n + 1)) := by
  unfold rotateRefreshToken chainTok verifyRefreshJwt
  simp only
  rw [if_pos (beq_self_eq_true cfg.refreshSecret)]
  simp only
  rw [if_neg (by simp)]
  rw [latest_chain hash u s sec hinj n n (Nat.le_refl n)]
  simp only
  rw [if_neg (by simp [chainRow] : ¬ (chainRow hash u s sec n n).isRevoked = true)]
  rw [if_neg (by simp [chainRow, hchk])]
  rw [show List.find? (fun u2 => u2.id == (chainRow hash u s sec n n).userId)
      (chainDb hash u s sec n).users = some u from by
    simp [chainRow, chainDb, List.find?_cons]]
  simp only
  rw [show (chainDb hash u s sec n).nextRowId = n + 1 from rfl]
  rw [show (chainDb hash u s sec n).refreshTokens =
      (List.range (n + 1)).map (fun i => chainRow hash u s sec i n) from rfl]
  rw [show (chainRow hash u s sec n n).id = n from rfl]
  rw [show (chainDb hash u s sec n).users = [u] from rfl]
  rw [chain_rows_update hash u s sec n]
  rfl

theorem rotateChain_closed (check : String → String → Bool) (hash : String → String)
    (cfg : AuthConfig) (u : UserRow) (s sec : Nat → String)
    (hchk : ∀ x, check x (hash x) = true)
    (hinj : ∀ i j : Nat, s i = s j → i = j) (N : Nat) :
    rotateChain check hash cfg u s sec N =
      .ok (chainDb hash u s sec N, chainResult cfg u s sec N) := by
  induction N with
  | zero => rfl
  | succ n ih =>
    unfold rotateChain
    rw [ih]
    exact rotate_chain_step check hash cfg u s sec hchk hinj n

theorem chainDb_count_live (hash : String → String) (u : UserRow) (s sec : Nat → String)
    (n : Nat) :
    (chainDb hash u s sec n).refreshTokens.countP (fun r => !r.isRevoked) = 1 := by
  unfold chainDb
  simp only
  rw [List.countP_map, List.range_succ, List.countP_append]
  have h0 : (List.range n).countP
      ((fun r => !r.isRevoked) ∘ fun i => chainRow hash u s sec i n) = 0 := by
    rw [List.countP_eq_zero]
    intro i hi
    have hil : i < n := List.mem_range.mp hi
    simp [Function.comp, chainRow, hil]
  rw [h0]
  simp [Function.comp, chainRow, List.countP_cons, Nat.lt_irrefl]

theorem chainDb_count_revoked (hash : String → String) (u : UserRow) (s sec : Nat → String)
    (n : Nat) :
    (chainDb hash u s sec n).refreshTokens.countP (fun r => r.isRevoked) = n := by
  unfold chainDb
  simp only
  rw [List.countP_map, List.range_succ, List.countP_append]
  have h0 : (List.range n).countP
      ((fun r => r.isRevoked) ∘ fun i => chainRow hash u s sec i n) = (List.range n).length := by
    rw [List.countP_eq_length]
    intro i hi
    have hil : i < n := List.mem_range.mp hi
    simp [Function.comp, chainRow, hil]
  rw [h0, List.length_range]
  simp [Function.comp, chainRow, List.countP_cons, Nat.lt_irrefl]

theorem chainDb_replaced_by (hash : String → String) (u : UserRow) (s sec : Nat → String)
    (n : Nat) :
    ∀ r ∈ (chainDb hash u s sec n).refreshTokens, r.isRevoked = true →
      r.replacedBy = some (r.id + 1) ∧
        ∃ r2 ∈ (chainDb hash u s sec n).refreshTokens, r2.id = r.id + 1 := by
  intro r hr hrev
  unfold chainDb at hr ⊢
  simp only at hr ⊢
  rw [List.mem_map] at hr
  obtain ⟨i, hi, rfl⟩ := hr
  have hlt : i < n := of_decide_eq_true hrev
  constructor
  · simp [chainRow, hlt]
  · refine ⟨chainRow hash u s sec (i + 1) n, ?_, ?_⟩
    · exact List.mem_map.mpr ⟨i + 1,
        List.mem_range.mpr (by omega : i + 1 < n + 1), rfl⟩
    · simp [chainRow]

theorem chain_replay_revoked (check : String → String → Bool) (hash : String → String)
    (cfg : AuthConfig) (u : UserRow) (s sec : Nat → String)
    (hinj : ∀ i j : Nat, s i = s j → i = j) (N k : Nat) (hkN : k < N)
    (sid2 sec2 : String) (t2 : Nat) :
    rotateRefreshToken check hash cfg (chainDb hash u s sec N) (chainTok cfg u s sec k)
      sid2 sec2 t2 = .error (unauthorizedE "Refresh token revoked") := by
  unfold rotateRefreshToken chainTok verifyRefreshJwt
  simp only
  rw [if_pos (beq_self_eq_true cfg.refreshSecret)]
  simp only
  rw [if_neg (by simp)]
  rw [latest_chain hash u s sec hinj N k (Nat.le_of_lt hkN)]
  simp only
  rw [if_pos (by simp [chainRow, hkN] : (chainRow hash u s sec k N).isRevoked = true)]

/-- C5 (corrected: `N` rotations revoke `N` superseded rows, not
`N − 1`).  For every `N`, rotating the refresh credential `N` times in
sequence — each rotation using the compound token returned by the previous
step, starting from the row created at login — succeeds and leaves the
store in the closed form `chainDb`: `N + 1` rows in total, of which
exactly one is non-revoked and exactly `N` are revoked, every revoked row
pointing at its replacement row's id; and presenting any superseded
compound token to Rotate fails with the revoked-state error. -/
theorem c5_rotation_chain (check : String → String → Bool) (hash : String → String)
    (cfg : AuthConfig) (u : UserRow) (s sec : Nat → String)
    (hchk : ∀ x, check x (hash x) = true)
    (hinj : ∀ i j : Nat, s i = s j → i = j) (N : Nat) :
    rotateChain check hash cfg u s sec N =
        .ok (chainDb hash u s sec N, chainResult cfg u s sec N) ∧
      (chainDb hash u s sec N).refreshTokens.length = N + 1 ∧
      (chainDb hash u s sec N).refreshTokens.countP (fun r => !r.isRevoked) = 1 ∧
      (chainDb hash u s sec N).refreshTokens.countP (fun r => r.isRevoked) = N ∧
      (∀ r ∈ (chainDb hash u s sec N).refreshTokens, r.isRevoked = true →
        r.replacedBy = some (r.id + 1) ∧
          ∃ r2 ∈ (chainDb hash u s sec N).refreshTokens, r2.id = r.id + 1) ∧
      (∀ k, k < N → ∀ sid2 sec2 t2,
        rotateRefreshToken check hash cfg (chainDb hash u s sec N)
          (chainTok cfg u s sec k) sid2 sec2 t2 =
          .error (unauthorizedE "Refresh token revoked")) :=
  ⟨rotateChain_closed check hash cfg u s sec hchk hinj N,
   by simp [chainDb],
   chainDb_count_live hash u s sec N,
   chainDb_count_revoked hash u s sec N,
   chainDb_replaced_by hash u s sec N,
   fun k hk sid2 sec2 t2 =>
     chain_replay_revoked check hash cfg u s sec hinj N k hk sid2 sec2 t2⟩

/-- Witness for C5 at `N = 2` with concrete hash/compare functions and
injective session-id and secret supplies. -/
theorem c5_witness :
    (∀ x : String, ((fun x h => h == "H" ++ x) : String → String → Bool) x
      ((fun x => "H" ++ x) x) = true) ∧
    (∀ i j : Nat,
      (fun i => String.mk (List.replicate i 'a')) i =
        (fun i => String.mk (List.replicate i 'a')) j → i = j) ∧
    (rotateChain (fun x h => h == "H" ++ x) (fun x => "H" ++ x) ⟨"acc", "ref"⟩
        ⟨1, "alice", "ph"⟩ (fun i => String.mk (List.replicate i 'a'))
        (fun i => String.mk (List.replicate i 'b')) 2 =
        .ok (chainDb (fun x => "H" ++ x) ⟨1, "alice", "ph"⟩
              (fun i => String.mk (List.replicate i 'a'))
              (fun i => String.mk (List.replicate i 'b')) 2,
             chainResult ⟨"acc", "ref"⟩ ⟨1, "alice", "ph"⟩
              (fun i => String.mk (List.replicate i 'a'))
              (fun i => String.mk (List.replicate i 'b')) 2) ∧
      (chainDb (fun x => "H" ++ x) ⟨1, "alice", "ph"⟩
          (fun i => String.mk (List.replicate i 'a'))
          (fun i => String.mk (List.replicate i 'b')) 2).refreshTokens.length = 2 + 1 ∧
      (chainDb (fun x => "H" ++ x) ⟨1, "alice", "ph"⟩
          (fun i => String.mk (List.replicate i 'a'))
          (fun i => String.mk (List.replicate i 'b')) 2).refreshTokens.countP
        (fun r => !r.isRevoked) = 1 ∧
      (chainDb (fun x => "H" ++ x) ⟨1, "alice", "ph"⟩
          (fun i => String.mk (List.replicate i 'a'))
          (fun i => String.mk (List.replicate i 'b')) 2).refreshTokens.countP
        (fun r => r.isRevoked) = 2 ∧
      (∀ r ∈ (chainDb (fun x => "H" ++ x) ⟨1, "alice", "ph"⟩
          (fun i => String.mk (List.replicate i 'a'))
          (fun i => String.mk (List.replicate i 'b')) 2).refreshTokens, r.isRevoked = true →
        r.replacedBy = some (r.id + 1) ∧
          ∃ r2 ∈ (chainDb (fun x => "H" ++ x) ⟨1, "alice", "ph"⟩
            (fun i => String.mk (List.replicate i 'a'))
            (fun i => String.mk (List.replicate i 'b')) 2).refreshTokens,
            r2.id = r.id + 1) ∧
      (∀ k, k < 2 → ∀ sid2 sec2 t2,
        rotateRefreshToken (fun x h => h == "H" ++ x) (fun x => "H" ++ x) ⟨"acc", "ref"⟩
          (chainDb (fun x => "H" ++ x) ⟨1, "alice", "ph"⟩
            (fun i => String.mk (List.replicate i 'a'))
            (fun i => String.mk (List.replicate i 'b')) 2)
          (chainTok ⟨"acc", "ref"⟩ ⟨1, "alice", "ph"⟩
            (fun i => String.mk (List.replicate i 'a'))
            (fun i => String.mk (List.replicate i 'b')) k) sid2 sec2 t2 =
          .error (unauthorizedE "Refresh token revoked"))) :=
  ⟨fun x => beq_self_eq_true ("H" ++ x),
   fun i j h => by
    have h2 : List.replicate i 'a' = List.replicate j 'a' := congrArg String.data h
    have h3 := congrArg List.length h2
    simpa using h3,
   c5_rotation_chain (fun x h => h == "H" ++ x) (fun x => "H" ++ x) ⟨"acc", "ref"⟩
     ⟨1, "alice", "ph"⟩ (fun i => String.mk (List.replicate i 'a'))
     (fun i => String.mk (List.replicate i 'b'))
     (fun x => beq_self_eq_true ("H" ++ x))
     (fun i j h => by
      have h2 : List.replicate i 'a' = List.replicate j 'a' := congrArg String.data h
      have h3 := congrArg List.length h2
      simpa using h3) 2⟩

/-- Counterexample to C5 as stated: a single rotation (`N = 1`) revokes
exactly one superseded row, not `N − 1 = 0`. -/
theorem c5_counterexample :
    let run := rotateChain (fun x h => h == "H" ++ x) (fun x => "H" ++ x) ⟨"acc", "ref"⟩
      ⟨1, "alice", "ph"⟩ (fun i => String.mk (List.replicate i 'a'))
      (fun i => String.mk (List.replicate i 'b')) 1
    (run.map (fun pr => pr.1.refreshTokens.countP (fun r => r.isRevoked)) = .ok 1) ∧
      ¬ (run.map (fun pr => pr.1.refreshTokens.countP (fun r => r.isRevoked)) =
        .ok (1 - 1)) := by
  decide

end ChatCore
